import Mathlib

/-!
# Cannon game: the state logic of `Sample_GL3_2D.cpp`

The program keeps its game state in global variables that are read and written
by the key callback `keyboard` and by the per-frame callback `draw`.  This file
embeds that state logic:

* `State` holds the globals that `keyboard` and `draw` touch;
* `keyboard` is the key callback, `draw` the state effect of one frame;
* `run` replays a finite list of events (key events and frames).

The arithmetic is read in two ways.  In the exact reading (`draw`, `run`) every
`float` of the source is the rational its decimal literal denotes and
arithmetic is exact; it is used for the properties that rounding does not
touch.  In the binary32 reading (`draw32`, `run32`) every operation is rounded
as the source's types prescribe; it is used where a threshold or an equality
between computed values is at stake.  The two library calls `std::sin` and
`std::cos` are parameters of the model (`Trig`); `refTrig` is a rational
instance used to evaluate the model on concrete inputs.
Only the state effect of `draw` and its draw calls are modelled.
-/

namespace Cannon

/-! ## Data model -/

/-- The library functions, as functions of the cannon angle in degrees:
`sin d` stands for `std::sin(d*M_PI/180.0f)` and `cos d` for
`std::cos(d*M_PI/180.0f)`. -/
structure Trig where
  sin : ℚ → ℚ
  cos : ℚ → ℚ

/-- The global variables of the source that `keyboard` and `draw` use.
`gravity` is never written by the program; it is kept in the state so that
statements can range over it. -/
structure State where
  cannon_rot_dir : ℚ
  cannon_rot_status : Bool
  shot : Bool
  speed : ℚ
  delta_t : ℚ
  gravity : ℚ
  cannon_rotation : ℚ
  ballx_initial : ℚ
  bally_initial : ℚ
  speedx_initial : ℚ
  speedy_initial : ℚ
  speedy_final : ℚ
  flg : Fin 3 → Bool
  score : ℤ

/-- The initial values of the globals (source lines 205-224). -/
def init : State where
  cannon_rot_dir := 1
  cannon_rot_status := false
  shot := false
  speed := 3 / 100
  delta_t := 0
  gravity := -(1 / 100)
  cannon_rotation := 0
  ballx_initial := 0
  bally_initial := 1
  speedx_initial := 0
  speedy_initial := 0
  speedy_final := 0
  flg := fun _ => false
  score := 0

/-- Global `radius = 0.1` (the projectile radius); never written. -/
def radius : ℚ := 1 / 10

/-- Global `xoffset = 3.1`; never written. -/
def xoffset : ℚ := 31 / 10

/-- The local table `a` of `draw`: row `i` is `(cx, cy, r)` of target `i`. -/
def a (i : Fin 3) : ℚ × ℚ × ℚ :=
  match i with
  | 0 => (43 / 10, 3, 1 / 2)
  | 1 => (9 / 4, 37 / 10, 7 / 10)
  | 2 => (73 / 10, 6 / 5, 1 / 5)

/-- The keys that `keyboard` distinguishes; `OTHER` is any other key. -/
inductive Key where
  | C | P | F | S | SPACE | ESCAPE | OTHER
  deriving DecidableEq, Repr

/-- The GLFW key actions. -/
inductive Action where
  | RELEASE | PRESS | REPEAT
  deriving DecidableEq, Repr

/-- An event of the main loop: a key event delivered by `glfwPollEvents`, or one
call of `draw`.  Character input (`keyboardChar`) and the mouse callback write no
global and are not events of the model. -/
inductive Event where
  | key (k : Key) (act : Action)
  | frame
  deriving DecidableEq, Repr

/-! ## Operations -/

/-- The key callback `keyboard` (its effect on the globals).  `ESCAPE` pressed
calls `quit`, which ends the process; `run` stops there. -/
def keyboard (k : Key) (act : Action) (s : State) : State :=
  match act, k with
  | .RELEASE, .C => { s with cannon_rot_status := false }
  | .RELEASE, .P => { s with cannon_rot_status := false }
  | .RELEASE, .F => { s with speed := s.speed + 1 / 100 }
  | .RELEASE, .S => { s with speed := s.speed - 1 / 100 }
  | .RELEASE, .SPACE => { s with shot := true }
  | .PRESS, .C => { s with cannon_rot_status := true, cannon_rot_dir := 1 }
  | .PRESS, .P => { s with cannon_rot_status := true, cannon_rot_dir := -1 }
  | _, _ => s

/-- The `if(!shot)` branch of `draw`: the projectile follows the cannon and the
launch velocity is recomputed from the current speed and angle. -/
def trackMuzzle (T : Trig) (s : State) : State :=
  { s with
    ballx_initial := -T.sin s.cannon_rotation
    bally_initial := T.cos s.cannon_rotation
    speedx_initial := -s.speed * T.sin s.cannon_rotation
    speedy_initial := s.speed * T.cos s.cannon_rotation }

/-- The first four statements of the `else` branch of `draw`: time and position
update of a launched projectile. -/
def integrate (s : State) : State :=
  let dt := s.delta_t + 1 / 10
  { s with
    delta_t := dt
    ballx_initial := s.ballx_initial + s.speedx_initial * dt
    bally_initial := s.bally_initial + (s.speedy_initial * dt + 1 / 2 * s.gravity * dt * dt)
    speedy_final := s.speedy_initial + s.gravity * dt }

/-- The test `dx*dx + dy*dy <= total_radius*total_radius` of the collision loop
for target `i` and projectile position `(x, y)`. -/
def inRange (i : Fin 3) (x y : ℚ) : Prop :=
  ((a i).1 - x) * ((a i).1 - x) + ((a i).2.1 - y) * ((a i).2.1 - y)
    ≤ ((a i).2.2 + radius) * ((a i).2.2 + radius)

instance (i : Fin 3) (x y : ℚ) : Decidable (inRange i x y) := by
  unfold inRange; infer_instance

/-- One iteration of the collision loop of `draw`, for target `i`. -/
def hitTest (i : Fin 3) (s : State) : State :=
  if !s.flg i then
    if inRange i s.ballx_initial s.bally_initial then
      { s with flg := Function.update s.flg i true, score := s.score + 1 }
    else s
  else s

/-- The collision loop `for(int i = 0 ; i < 3 ; i++)` of `draw`. -/
def collide (s : State) : State :=
  ([0, 1, 2] : List (Fin 3)).foldl (fun st i => hitTest i st) s

/-- The statement under `// rebound x`. -/
def reboundX (s : State) : State :=
  if s.ballx_initial - xoffset > 4 ∨ s.ballx_initial + 4 - xoffset < 0 then
    { s with speedx_initial := -1 * (s.speedx_initial - s.speedx_initial * (5 / 100)) }
  else s

/-- The statement under `// rebound y`. -/
def reboundY (s : State) : State :=
  if s.bally_initial < -(8 / 10) ∨ s.bally_initial > 8 - 8 / 10 then
    { s with speedy_initial := -1 * (s.speedy_final - s.speedy_final * (5 / 100)) }
  else s

/-- The `else` branch of `draw` up to the test `bally_initial < -2`. -/
def launchedTick (s : State) : State :=
  reboundY (reboundX (collide (integrate s)))

/-- The part of `draw` under `// Increment angles`. -/
def incrementAngles (s : State) : State :=
  let p : ℚ × ℚ :=
    if s.cannon_rotation > 90 then (-90, 0)
    else if s.cannon_rotation < -90 then (90, 0)
    else (s.cannon_rotation, 5)
  if s.cannon_rot_status then
    { s with cannon_rotation := p.1 + p.2 * s.cannon_rot_dir * 1 }
  else
    { s with cannon_rotation := p.1 }

/-- The state effect of one call of `draw`.  When the projectile is launched and
its updated height is below `-2` the function returns before the angle update. -/
def draw (T : Trig) (s : State) : State :=
  if !s.shot then
    incrementAngles (trackMuzzle T s)
  else
    let s1 := launchedTick s
    if s1.bally_initial < -2 then s1 else incrementAngles s1

/-- Replays a list of events from state `s`.  `ESCAPE` pressed ends the process,
so the events after it have no effect. -/
def run (T : Trig) : List Event → State → State
  | [], s => s
  | Event.frame :: es, s => run T es (draw T s)
  | Event.key Key.ESCAPE Action.PRESS :: _, s => s
  | Event.key k act :: es, s => run T es (keyboard k act s)

/-- The number of frames of `draw` applied in succession. -/
def frames (T : Trig) (n : ℕ) (s : State) : State :=
  (draw T)^[n] s

/-! ## Transforms of the draw calls

`draw` hands every mesh to the renderer together with the matrix `MVP` it has
built for it.  `VP` is `Matrices.projection * Matrices.view`, a parameter here;
the matrices are those of `glm`, acting on column vectors. -/

/-- A `glm::mat4`. -/
abbrev Mat4 := Matrix (Fin 4) (Fin 4) ℚ

/-- The matrix `glm::translate(vec3(x, y, z))`. -/
def translate (x y z : ℚ) : Mat4 :=
  !![1, 0, 0, x; 0, 1, 0, y; 0, 0, 1, z; 0, 0, 0, 1]

/-- The matrix `glm::rotate((float)(deg*M_PI/180.0f), vec3(0,0,1))`: the rotation
about the z axis by `deg` degrees, with the sine and cosine of the library. -/
def rotate (T : Trig) (deg : ℚ) : Mat4 :=
  !![T.cos deg, -T.sin deg, 0, 0; T.sin deg, T.cos deg, 0, 0; 0, 0, 1, 0; 0, 0, 0, 1]

/-- The meshes drawn by `draw`.  `ball`, `blueball` and the three target balls
are triangle fans on circles about the origin of their mesh. -/
inductive Mesh where
  | t_triangle | t_rectangle | t_trep | t_ball1 | t_ball2 | t_ball3
  | cannon | blueball | pivot | ball
  deriving DecidableEq, Repr

/-- The vertices of the cannon mesh (`create_cannon`): a trapezium whose top edge
runs from (0.1, 0.5) to (-0.1, 0.5). -/
def cannon_vertex_buffer_data : List (ℚ × ℚ × ℚ) :=
  [(1 / 10, 1 / 2, 0), (-(1 / 10), 1 / 2, 0), (-(2 / 10), -(1 / 2), 0),
   (-(2 / 10), -(1 / 2), 0), (2 / 10, -(1 / 2), 0), (1 / 10, 1 / 2, 0)]

/-- The local `translateAxes = translate(vec3(-4,-4,0))` of `draw`. -/
def translateAxes : Mat4 := translate (-4) (-4) 0

/-- The arguments of the three `translateBall = translate(vec3(..))` under
`// Target balls`. -/
def targetBallOffset (i : Fin 3) : ℚ × ℚ :=
  match i with
  | 0 => (43 / 10, 3)
  | 1 => (9 / 4, 37 / 10)
  | 2 => (73 / 10, 6 / 5)

/-- The mesh of target ball `i`. -/
def targetMesh (i : Fin 3) : Mesh :=
  match i with
  | 0 => Mesh.t_ball1
  | 1 => Mesh.t_ball2
  | 2 => Mesh.t_ball3

/-- The `MVP` of the three target shapes (triangle, rectangle, trapezium). -/
def mvpShape (VP : Mat4) : Mat4 := VP * 1 * translateAxes

/-- The `MVP` built for target ball `i`. -/
def mvpTargetBall (VP : Mat4) (i : Fin 3) : Mat4 :=
  VP * 1 * translateAxes * translate (targetBallOffset i).1 (targetBallOffset i).2 0

/-- The `MVP` with which the cannon is drawn. -/
def mvpCannon (T : Trig) (VP : Mat4) (s : State) : Mat4 :=
  VP * translateAxes * (1 * (translate 1 (3 / 10) 0 * rotate T s.cannon_rotation))
    * translate 0 (1 / 2) 0

/-- The `MVP` with which `blueball` is drawn: that of the cannon, moved back. -/
def mvpBlueball (T : Trig) (VP : Mat4) (s : State) : Mat4 :=
  mvpCannon T VP s * translate 0 (-(1 / 2)) 0

/-- The `MVP` with which the pivot is drawn. -/
def mvpPivot (VP : Mat4) : Mat4 :=
  VP * 1 * translateAxes * translate 1 (8 / 10) 0

/-- The `MVP` with which the projectile is drawn, or `none` when `draw` returns
before drawing it.  Unlaunched, `MVP` is rebuilt from `VP`; launched, the code
goes on from the `MVP` left by the pivot and appends the translation by the
updated position. -/
def mvpBall (T : Trig) (VP : Mat4) (s : State) : Option Mat4 :=
  if !s.shot then
    some (VP * 1 * translateAxes * (1 * (translate 1 (3 / 10) 0 * rotate T s.cannon_rotation))
      * translate 0 (86 / 100) 0)
  else
    let s1 := launchedTick s
    if s1.bally_initial < -2 then none
    else some (mvpPivot VP * translate s1.ballx_initial s1.bally_initial 0)

/-- The draw calls of one frame, in the order of `draw`: each mesh with its
`MVP`.  A target ball is drawn only while its flag is clear. -/
def drawCalls (T : Trig) (VP : Mat4) (s : State) : List (Mesh × Mat4) :=
  [(Mesh.t_triangle, mvpShape VP), (Mesh.t_rectangle, mvpShape VP), (Mesh.t_trep, mvpShape VP)]
    ++ (if !s.flg 0 then [(Mesh.t_ball1, mvpTargetBall VP 0)] else [])
    ++ (if !s.flg 1 then [(Mesh.t_ball2, mvpTargetBall VP 1)] else [])
    ++ (if !s.flg 2 then [(Mesh.t_ball3, mvpTargetBall VP 2)] else [])
    ++ [(Mesh.cannon, mvpCannon T VP s), (Mesh.blueball, mvpBlueball T VP s),
        (Mesh.pivot, mvpPivot VP)]
    ++ (match mvpBall T VP s with
        | some m => [(Mesh.ball, m)]
        | none => [])

/-! ## A rational instance of the library functions -/

/-- Bhaskara's rational approximation of the sine of `d` degrees, for
`0 ≤ d ≤ 180`. -/
def bhaskara (d : ℚ) : ℚ :=
  4 * d * (180 - d) / (40500 - d * (180 - d))

/-- A rational sine in degrees, odd in its argument. -/
def sinDeg (d : ℚ) : ℚ :=
  if 0 ≤ d then bhaskara d else -bhaskara (-d)

/-- The matching rational cosine in degrees. -/
def cosDeg (d : ℚ) : ℚ :=
  sinDeg (90 - d)

/-- A rational stand-in for `std::sin` and `std::cos`: exact at 0 and at 90
degrees (sine 0 and 1, cosine 1 and 0), an approximation elsewhere, as the
floating-point library is.  It is used only to evaluate the model on concrete
inputs; the general statements hold for every `Trig`. -/
def refTrig : Trig where
  sin := sinDeg
  cos := cosDeg


/-! ## Concrete inputs -/

/-- A replay that hits target 1: one frame, `P` held for five frames (angle -25),
`F` released eleven times (speed 0.14), one frame, fire, twenty frames. -/
def hitRun : List Event :=
  [Event.frame, Event.key Key.P Action.PRESS] ++ List.replicate 5 Event.frame
    ++ [Event.key Key.P Action.RELEASE] ++ List.replicate 11 (Event.key Key.F Action.RELEASE)
    ++ [Event.frame, Event.key Key.SPACE Action.RELEASE] ++ List.replicate 20 Event.frame

/-- A launched state whose next position update puts the projectile at
(3.3, 2.2), so that it is drawn with its centre at (4.3, 3), the centre of
target 0. -/
def overlayState : State :=
  { init with shot := true, ballx_initial := 33 / 10, bally_initial := 220005 / 100000 }

/-! ## Quantities used to state the claims -/

/-- The number of targets whose hit flag is set. -/
def hitCount (s : State) : ℤ :=
  ∑ j : Fin 3, if s.flg j = true then 1 else 0

/-! ## Binary32 reading of the arithmetic

The globals of the source are `float`s.  This section repeats the state logic
with every operation rounded as the source's types prescribe: an operation
between two `float`s rounds to binary32, an operation with a `double` operand
(an unsuffixed literal such as `.1` or `.5`, or a value of `std::sin`) rounds to
binary64, and an assignment to a `float` rounds to binary32.  Rounding is to
nearest, ties to even.  Values stay rationals: a `float` is the rational it
denotes.  Overflow to infinity and NaN are not modelled, and `-0` is `0`. -/

/-- Auxiliary recursion of `natLog2`, with fuel `k`. -/
def log2Fuel : ℕ → ℕ → ℕ
  | 0, _ => 0
  | k + 1, n => if 2 ≤ n then log2Fuel k (n / 2) + 1 else 0

/-- The position of the leading binary digit of `n`: `⌊log₂ n⌋` for `n ≥ 1`. -/
def natLog2 (n : ℕ) : ℕ := log2Fuel n n

/-- For `q > 0`: the binary exponent of `q`, that is `⌊log₂ q⌋`. -/
def ilog2 (q : ℚ) : ℤ :=
  if (2 : ℚ) ^ ((natLog2 q.num.natAbs : ℤ) - (natLog2 q.den : ℤ)) ≤ q
  then (natLog2 q.num.natAbs : ℤ) - (natLog2 q.den : ℤ)
  else (natLog2 q.num.natAbs : ℤ) - (natLog2 q.den : ℤ) - 1

/-- The integer nearest to `q`, ties to the even one. -/
def roundHalfEven (q : ℚ) : ℤ :=
  if q - ⌊q⌋ < 1 / 2 then ⌊q⌋
  else if 1 / 2 < q - ⌊q⌋ then ⌊q⌋ + 1
  else if ⌊q⌋ % 2 = 0 then ⌊q⌋ else ⌊q⌋ + 1

/-- Rounds `q` to the binary floating-point format with `p` significant bits
and least normal exponent `emin` (below it the spacing stays that of `emin`). -/
def roundTo (p : ℕ) (emin : ℤ) (q : ℚ) : ℚ :=
  if q = 0 then 0
  else roundHalfEven (q / (2 : ℚ) ^ (max (ilog2 |q|) emin - (p - 1)))
        * (2 : ℚ) ^ (max (ilog2 |q|) emin - (p - 1))

/-- Rounding to binary32 (`float`). -/
def fl32 (q : ℚ) : ℚ := roundTo 24 (-126) q

/-- Rounding to binary64 (`double`). -/
def fl64 (q : ℚ) : ℚ := roundTo 53 (-1022) q

/-- The initial values of the globals, as `float`s initialised from `double`
literals. -/
def init32 : State where
  cannon_rot_dir := 1
  cannon_rot_status := false
  shot := false
  speed := fl32 (fl64 (3 / 100))
  delta_t := 0
  gravity := fl32 (fl64 (-(1 / 100)))
  cannon_rotation := 0
  ballx_initial := 0
  bally_initial := 1
  speedx_initial := 0
  speedy_initial := 0
  speedy_final := 0
  flg := fun _ => false
  score := 0

/-- Global `float radius = 0.1`. -/
def radius32 : ℚ := fl32 (fl64 (1 / 10))

/-- Global `float xoffset = 3.1`. -/
def xoffset32 : ℚ := fl32 (fl64 (31 / 10))

/-- The local table `float a[][3]` of `draw`, initialised from `double`
literals. -/
def a32 (i : Fin 3) : ℚ × ℚ × ℚ :=
  match i with
  | 0 => (fl32 (fl64 (43 / 10)), fl32 (fl64 3), fl32 (fl64 (1 / 2)))
  | 1 => (fl32 (fl64 (9 / 4)), fl32 (fl64 (37 / 10)), fl32 (fl64 (7 / 10)))
  | 2 => (fl32 (fl64 (73 / 10)), fl32 (fl64 (6 / 5)), fl32 (fl64 (1 / 5)))

/-- The key callback `keyboard`: `speed += .01` and `speed -= .01` add the
`double` literal and round the result to `float`. -/
def keyboard32 (k : Key) (act : Action) (s : State) : State :=
  match act, k with
  | .RELEASE, .C => { s with cannon_rot_status := false }
  | .RELEASE, .P => { s with cannon_rot_status := false }
  | .RELEASE, .F => { s with speed := fl32 (fl64 (s.speed + fl64 (1 / 100))) }
  | .RELEASE, .S => { s with speed := fl32 (fl64 (s.speed - fl64 (1 / 100))) }
  | .RELEASE, .SPACE => { s with shot := true }
  | .PRESS, .C => { s with cannon_rot_status := true, cannon_rot_dir := 1 }
  | .PRESS, .P => { s with cannon_rot_status := true, cannon_rot_dir := -1 }
  | _, _ => s

/-- The `if(!shot)` branch of `draw`; `T.sin` and `T.cos` give the `double`
returned by the library. -/
def trackMuzzle32 (T : Trig) (s : State) : State :=
  { s with
    ballx_initial := fl32 (-T.sin s.cannon_rotation)
    bally_initial := fl32 (T.cos s.cannon_rotation)
    speedx_initial := fl32 (fl64 (-s.speed * T.sin s.cannon_rotation))
    speedy_initial := fl32 (fl64 (s.speed * T.cos s.cannon_rotation)) }

/-- The statement `delta_t += .1`: the sum with the `double` literal, rounded to
`float`. -/
def addTenth32 (d : ℚ) : ℚ := fl32 (fl64 (d + fl64 (1 / 10)))

/-- The first four statements of the `else` branch of `draw`.  In the update of
`bally_initial` the product `speedy_initial * delta_t` is a `float`, the term
with the literal `.5` and the two sums are `double`s. -/
def integrate32 (s : State) : State :=
  let dt := addTenth32 s.delta_t
  { s with
    delta_t := dt
    ballx_initial := fl32 (s.ballx_initial + fl32 (s.speedx_initial * dt))
    bally_initial :=
      fl32 (fl64 (s.bally_initial
        + fl64 (fl32 (s.speedy_initial * dt)
            + fl64 (fl64 (fl64 (fl64 (1 / 2) * s.gravity) * dt) * dt))))
    speedy_final := fl32 (s.speedy_initial + fl32 (s.gravity * dt)) }

/-- The `float` value of `dx*dx + dy*dy` in the collision loop, for target `i`
and projectile position `(x, y)`. -/
def dist2_32 (i : Fin 3) (x y : ℚ) : ℚ :=
  fl32 (fl32 (fl32 ((a32 i).1 - x) * fl32 ((a32 i).1 - x))
    + fl32 (fl32 ((a32 i).2.1 - y) * fl32 ((a32 i).2.1 - y)))

/-- The `float` value of `total_radius*total_radius` for target `i`. -/
def reach2_32 (i : Fin 3) : ℚ :=
  fl32 (fl32 ((a32 i).2.2 + radius32) * fl32 ((a32 i).2.2 + radius32))

/-- The test `dx*dx + dy*dy <= total_radius*total_radius` on `float`s. -/
def inRange32 (i : Fin 3) (x y : ℚ) : Prop :=
  dist2_32 i x y ≤ reach2_32 i

instance (i : Fin 3) (x y : ℚ) : Decidable (inRange32 i x y) := by
  unfold inRange32; infer_instance

/-- One iteration of the collision loop of `draw`, for target `i`. -/
def hitTest32 (i : Fin 3) (s : State) : State :=
  if !s.flg i then
    if inRange32 i s.ballx_initial s.bally_initial then
      { s with flg := Function.update s.flg i true, score := s.score + 1 }
    else s
  else s

/-- The collision loop `for(int i = 0 ; i < 3 ; i++)` of `draw`. -/
def collide32 (s : State) : State :=
  ([0, 1, 2] : List (Fin 3)).foldl (fun st i => hitTest32 i st) s

/-- The statement under `// rebound x`, with `float` operations and the `float`
literals `4.0f` and `.05f`. -/
def reboundX32 (s : State) : State :=
  if fl32 (s.ballx_initial - xoffset32) > 4
      ∨ fl32 (fl32 (s.ballx_initial + 4) - xoffset32) < 0 then
    { s with
      speedx_initial := -1 * fl32 (s.speedx_initial - fl32 (s.speedx_initial * fl32 (5 / 100))) }
  else s

/-- The statement under `// rebound y`, with the `float` bounds `-0.8f` and
`8.0f - 0.8f`. -/
def reboundY32 (s : State) : State :=
  if s.bally_initial < -fl32 (8 / 10) ∨ s.bally_initial > fl32 (8 - fl32 (8 / 10)) then
    { s with
      speedy_initial := -1 * fl32 (s.speedy_final - fl32 (s.speedy_final * fl32 (5 / 100))) }
  else s

/-- The `else` branch of `draw` up to the test `bally_initial < -2`. -/
def launchedTick32 (s : State) : State :=
  reboundY32 (reboundX32 (collide32 (integrate32 s)))

/-- The part of `draw` under `// Increment angles`, with `float` operations. -/
def incrementAngles32 (s : State) : State :=
  let p : ℚ × ℚ :=
    if s.cannon_rotation > 90 then (-90, 0)
    else if s.cannon_rotation < -90 then (90, 0)
    else (s.cannon_rotation, 5)
  if s.cannon_rot_status then
    { s with cannon_rotation := fl32 (p.1 + fl32 (fl32 (p.2 * s.cannon_rot_dir) * 1)) }
  else
    { s with cannon_rotation := p.1 }

/-- The state effect of one call of `draw`, in the binary32 reading. -/
def draw32 (T : Trig) (s : State) : State :=
  if !s.shot then
    incrementAngles32 (trackMuzzle32 T s)
  else
    let s1 := launchedTick32 s
    if s1.bally_initial < -2 then s1 else incrementAngles32 s1

/-- Replays a list of events from state `s`, in the binary32 reading. -/
def run32 (T : Trig) : List Event → State → State
  | [], s => s
  | Event.frame :: es, s => run32 T es (draw32 T s)
  | Event.key Key.ESCAPE Action.PRESS :: _, s => s
  | Event.key k act :: es, s => run32 T es (keyboard32 k act s)

/-- The number of launched ticks in a replay: the frames of `run32 T es s` that
`draw` enters with `shot` set. -/
def launchedTicks32 (T : Trig) : List Event → State → ℕ
  | [], _ => 0
  | Event.frame :: es, s => (if s.shot = true then 1 else 0) + launchedTicks32 T es (draw32 T s)
  | Event.key Key.ESCAPE Action.PRESS :: _, _ => 0
  | Event.key k act :: es, s => launchedTicks32 T es (keyboard32 k act s)

/-- The replay "one frame, fire, `n` frames": a shot straight up. -/
def straightUp (n : ℕ) : List Event :=
  [Event.frame, Event.key Key.SPACE Action.RELEASE] ++ List.replicate n Event.frame

/-- A launched state of `float` values whose next position update gives
`(4.3f - 720*2^-21, 3.6f)`, about `(4.2996569, 3.5999999)`, just outside the disc
of radius 0.6 about the centre of target 0. -/
def edgeState32 : State :=
  { init32 with
    shot := true, ballx_initial := 4508517 / 1048576, bally_initial := 1887463 / 524288 }

/-- A launched state of `float` values, moving left with speed `0.1f`, whose next
position update gives `x = -0.90000015`, just left of the bound `x + 4 - 3.1 = 0`. -/
def leftEdgeState32 : State :=
  { init32 with
    shot := true, ballx_initial := -(14931725 / 16777216), speedx_initial := -fl32 (1 / 10) }

/-- A launched state of `float` values whose next position update gives the
height `-0.8f`, that is -0.800000012. -/
def floorEdgeState32 : State :=
  { init32 with shot := true, bally_initial := -(6710467 / 8388608) }

/-- A launched state of `float` values at `x = 7.09f` moving right with speed
`0.1f`; the next position update gives `x = 7.10000038`. -/
def rightState32 : State :=
  { init32 with shot := true, ballx_initial := fl32 (709 / 100), speedx_initial := fl32 (1 / 10) }

/-! ## Which globals each part of `draw` leaves alone -/

@[simp] theorem incrementAngles_cannon_rot_dir (s : State) :
    (incrementAngles s).cannon_rot_dir = s.cannon_rot_dir := by
  simp only [incrementAngles]; split_ifs <;> rfl
@[simp] theorem incrementAngles_cannon_rot_status (s : State) :
    (incrementAngles s).cannon_rot_status = s.cannon_rot_status := by
  simp only [incrementAngles]; split_ifs <;> rfl
@[simp] theorem incrementAngles_shot (s : State) :
    (incrementAngles s).shot = s.shot := by
  simp only [incrementAngles]; split_ifs <;> rfl
@[simp] theorem incrementAngles_speed (s : State) :
    (incrementAngles s).speed = s.speed := by
  simp only [incrementAngles]; split_ifs <;> rfl
@[simp] theorem incrementAngles_delta_t (s : State) :
    (incrementAngles s).delta_t = s.delta_t := by
  simp only [incrementAngles]; split_ifs <;> rfl
@[simp] theorem incrementAngles_gravity (s : State) :
    (incrementAngles s).gravity = s.gravity := by
  simp only [incrementAngles]; split_ifs <;> rfl
@[simp] theorem incrementAngles_ballx_initial (s : State) :
    (incrementAngles s).ballx_initial = s.ballx_initial := by
  simp only [incrementAngles]; split_ifs <;> rfl
@[simp] theorem incrementAngles_bally_initial (s : State) :
    (incrementAngles s).bally_initial = s.bally_initial := by
  simp only [incrementAngles]; split_ifs <;> rfl
@[simp] theorem incrementAngles_speedx_initial (s : State) :
    (incrementAngles s).speedx_initial = s.speedx_initial := by
  simp only [incrementAngles]; split_ifs <;> rfl
@[simp] theorem incrementAngles_speedy_initial (s : State) :
    (incrementAngles s).speedy_initial = s.speedy_initial := by
  simp only [incrementAngles]; split_ifs <;> rfl
@[simp] theorem incrementAngles_speedy_final (s : State) :
    (incrementAngles s).speedy_final = s.speedy_final := by
  simp only [incrementAngles]; split_ifs <;> rfl
@[simp] theorem incrementAngles_flg (s : State) :
    (incrementAngles s).flg = s.flg := by
  simp only [incrementAngles]; split_ifs <;> rfl
@[simp] theorem incrementAngles_score (s : State) :
    (incrementAngles s).score = s.score := by
  simp only [incrementAngles]; split_ifs <;> rfl

@[simp] theorem hitTest_cannon_rot_dir (i : Fin 3) (s : State) :
    (hitTest i s).cannon_rot_dir = s.cannon_rot_dir := by
  simp only [hitTest]; split_ifs <;> rfl
@[simp] theorem hitTest_cannon_rot_status (i : Fin 3) (s : State) :
    (hitTest i s).cannon_rot_status = s.cannon_rot_status := by
  simp only [hitTest]; split_ifs <;> rfl
@[simp] theorem hitTest_shot (i : Fin 3) (s : State) :
    (hitTest i s).shot = s.shot := by
  simp only [hitTest]; split_ifs <;> rfl
@[simp] theorem hitTest_speed (i : Fin 3) (s : State) :
    (hitTest i s).speed = s.speed := by
  simp only [hitTest]; split_ifs <;> rfl
@[simp] theorem hitTest_delta_t (i : Fin 3) (s : State) :
    (hitTest i s).delta_t = s.delta_t := by
  simp only [hitTest]; split_ifs <;> rfl
@[simp] theorem hitTest_gravity (i : Fin 3) (s : State) :
    (hitTest i s).gravity = s.gravity := by
  simp only [hitTest]; split_ifs <;> rfl
@[simp] theorem hitTest_cannon_rotation (i : Fin 3) (s : State) :
    (hitTest i s).cannon_rotation = s.cannon_rotation := by
  simp only [hitTest]; split_ifs <;> rfl
@[simp] theorem hitTest_ballx_initial (i : Fin 3) (s : State) :
    (hitTest i s).ballx_initial = s.ballx_initial := by
  simp only [hitTest]; split_ifs <;> rfl
@[simp] theorem hitTest_bally_initial (i : Fin 3) (s : State) :
    (hitTest i s).bally_initial = s.bally_initial := by
  simp only [hitTest]; split_ifs <;> rfl
@[simp] theorem hitTest_speedx_initial (i : Fin 3) (s : State) :
    (hitTest i s).speedx_initial = s.speedx_initial := by
  simp only [hitTest]; split_ifs <;> rfl
@[simp] theorem hitTest_speedy_initial (i : Fin 3) (s : State) :
    (hitTest i s).speedy_initial = s.speedy_initial := by
  simp only [hitTest]; split_ifs <;> rfl
@[simp] theorem hitTest_speedy_final (i : Fin 3) (s : State) :
    (hitTest i s).speedy_final = s.speedy_final := by
  simp only [hitTest]; split_ifs <;> rfl

@[simp] theorem collide_cannon_rot_dir (s : State) :
    (collide s).cannon_rot_dir = s.cannon_rot_dir := by
  simp [collide]
@[simp] theorem collide_cannon_rot_status (s : State) :
    (collide s).cannon_rot_status = s.cannon_rot_status := by
  simp [collide]
@[simp] theorem collide_shot (s : State) :
    (collide s).shot = s.shot := by
  simp [collide]
@[simp] theorem collide_speed (s : State) :
    (collide s).speed = s.speed := by
  simp [collide]
@[simp] theorem collide_delta_t (s : State) :
    (collide s).delta_t = s.delta_t := by
  simp [collide]
@[simp] theorem collide_gravity (s : State) :
    (collide s).gravity = s.gravity := by
  simp [collide]
@[simp] theorem collide_cannon_rotation (s : State) :
    (collide s).cannon_rotation = s.cannon_rotation := by
  simp [collide]
@[simp] theorem collide_ballx_initial (s : State) :
    (collide s).ballx_initial = s.ballx_initial := by
  simp [collide]
@[simp] theorem collide_bally_initial (s : State) :
    (collide s).bally_initial = s.bally_initial := by
  simp [collide]
@[simp] theorem collide_speedx_initial (s : State) :
    (collide s).speedx_initial = s.speedx_initial := by
  simp [collide]
@[simp] theorem collide_speedy_initial (s : State) :
    (collide s).speedy_initial = s.speedy_initial := by
  simp [collide]
@[simp] theorem collide_speedy_final (s : State) :
    (collide s).speedy_final = s.speedy_final := by
  simp [collide]

@[simp] theorem reboundX_cannon_rot_dir (s : State) :
    (reboundX s).cannon_rot_dir = s.cannon_rot_dir := by
  simp only [reboundX]; split_ifs <;> rfl
@[simp] theorem reboundX_cannon_rot_status (s : State) :
    (reboundX s).cannon_rot_status = s.cannon_rot_status := by
  simp only [reboundX]; split_ifs <;> rfl
@[simp] theorem reboundX_shot (s : State) :
    (reboundX s).shot = s.shot := by
  simp only [reboundX]; split_ifs <;> rfl
@[simp] theorem reboundX_speed (s : State) :
    (reboundX s).speed = s.speed := by
  simp only [reboundX]; split_ifs <;> rfl
@[simp] theorem reboundX_delta_t (s : State) :
    (reboundX s).delta_t = s.delta_t := by
  simp only [reboundX]; split_ifs <;> rfl
@[simp] theorem reboundX_gravity (s : State) :
    (reboundX s).gravity = s.gravity := by
  simp only [reboundX]; split_ifs <;> rfl
@[simp] theorem reboundX_cannon_rotation (s : State) :
    (reboundX s).cannon_rotation = s.cannon_rotation := by
  simp only [reboundX]; split_ifs <;> rfl
@[simp] theorem reboundX_ballx_initial (s : State) :
    (reboundX s).ballx_initial = s.ballx_initial := by
  simp only [reboundX]; split_ifs <;> rfl
@[simp] theorem reboundX_bally_initial (s : State) :
    (reboundX s).bally_initial = s.bally_initial := by
  simp only [reboundX]; split_ifs <;> rfl
@[simp] theorem reboundX_speedy_initial (s : State) :
    (reboundX s).speedy_initial = s.speedy_initial := by
  simp only [reboundX]; split_ifs <;> rfl
@[simp] theorem reboundX_speedy_final (s : State) :
    (reboundX s).speedy_final = s.speedy_final := by
  simp only [reboundX]; split_ifs <;> rfl
@[simp] theorem reboundX_flg (s : State) :
    (reboundX s).flg = s.flg := by
  simp only [reboundX]; split_ifs <;> rfl
@[simp] theorem reboundX_score (s : State) :
    (reboundX s).score = s.score := by
  simp only [reboundX]; split_ifs <;> rfl

@[simp] theorem reboundY_cannon_rot_dir (s : State) :
    (reboundY s).cannon_rot_dir = s.cannon_rot_dir := by
  simp only [reboundY]; split_ifs <;> rfl
@[simp] theorem reboundY_cannon_rot_status (s : State) :
    (reboundY s).cannon_rot_status = s.cannon_rot_status := by
  simp only [reboundY]; split_ifs <;> rfl
@[simp] theorem reboundY_shot (s : State) :
    (reboundY s).shot = s.shot := by
  simp only [reboundY]; split_ifs <;> rfl
@[simp] theorem reboundY_speed (s : State) :
    (reboundY s).speed = s.speed := by
  simp only [reboundY]; split_ifs <;> rfl
@[simp] theorem reboundY_delta_t (s : State) :
    (reboundY s).delta_t = s.delta_t := by
  simp only [reboundY]; split_ifs <;> rfl
@[simp] theorem reboundY_gravity (s : State) :
    (reboundY s).gravity = s.gravity := by
  simp only [reboundY]; split_ifs <;> rfl
@[simp] theorem reboundY_cannon_rotation (s : State) :
    (reboundY s).cannon_rotation = s.cannon_rotation := by
  simp only [reboundY]; split_ifs <;> rfl
@[simp] theorem reboundY_ballx_initial (s : State) :
    (reboundY s).ballx_initial = s.ballx_initial := by
  simp only [reboundY]; split_ifs <;> rfl
@[simp] theorem reboundY_bally_initial (s : State) :
    (reboundY s).bally_initial = s.bally_initial := by
  simp only [reboundY]; split_ifs <;> rfl
@[simp] theorem reboundY_speedx_initial (s : State) :
    (reboundY s).speedx_initial = s.speedx_initial := by
  simp only [reboundY]; split_ifs <;> rfl
@[simp] theorem reboundY_speedy_final (s : State) :
    (reboundY s).speedy_final = s.speedy_final := by
  simp only [reboundY]; split_ifs <;> rfl
@[simp] theorem reboundY_flg (s : State) :
    (reboundY s).flg = s.flg := by
  simp only [reboundY]; split_ifs <;> rfl
@[simp] theorem reboundY_score (s : State) :
    (reboundY s).score = s.score := by
  simp only [reboundY]; split_ifs <;> rfl

/-! ## `draw`, `launchedTick` and `run` unfolded -/

theorem draw_unlaunched (T : Trig) (s : State) (h : s.shot = false) :
    draw T s = incrementAngles (trackMuzzle T s) := by
  simp [draw, h]

theorem draw_launched (T : Trig) (s : State) (h : s.shot = true) :
    draw T s = if (launchedTick s).bally_initial < -2 then launchedTick s
      else incrementAngles (launchedTick s) := by
  simp [draw, h]

@[simp] theorem launchedTick_shot (s : State) : (launchedTick s).shot = s.shot := by
  simp [launchedTick, integrate]

@[simp] theorem launchedTick_gravity (s : State) : (launchedTick s).gravity = s.gravity := by
  simp [launchedTick, integrate]

@[simp] theorem launchedTick_speed (s : State) : (launchedTick s).speed = s.speed := by
  simp [launchedTick, integrate]

@[simp] theorem launchedTick_delta_t (s : State) :
    (launchedTick s).delta_t = s.delta_t + 1 / 10 := by
  simp [launchedTick, integrate]

@[simp] theorem launchedTick_ballx_initial (s : State) :
    (launchedTick s).ballx_initial
      = s.ballx_initial + s.speedx_initial * (s.delta_t + 1 / 10) := by
  simp [launchedTick, integrate]

@[simp] theorem launchedTick_bally_initial (s : State) :
    (launchedTick s).bally_initial
      = s.bally_initial + (s.speedy_initial * (s.delta_t + 1 / 10)
          + 1 / 2 * s.gravity * (s.delta_t + 1 / 10) * (s.delta_t + 1 / 10)) := by
  simp [launchedTick, integrate]

@[simp] theorem launchedTick_speedy_final (s : State) :
    (launchedTick s).speedy_final = s.speedy_initial + s.gravity * (s.delta_t + 1 / 10) := by
  simp [launchedTick, integrate]

@[simp] theorem launchedTick_flg (s : State) :
    (launchedTick s).flg = (collide (integrate s)).flg := by
  simp [launchedTick]

@[simp] theorem launchedTick_score (s : State) :
    (launchedTick s).score = (collide (integrate s)).score := by
  simp [launchedTick]

/-- A launched frame agrees with `launchedTick` on every global that the angle
update does not write. -/
theorem draw_launched_shot (T : Trig) (s : State) (h : s.shot = true) :
    (draw T s).shot = true := by
  rw [draw_launched T s h]; split_ifs <;> simp [h]

theorem draw_launched_delta_t (T : Trig) (s : State) (h : s.shot = true) :
    (draw T s).delta_t = s.delta_t + 1 / 10 := by
  rw [draw_launched T s h]; split_ifs <;> simp

theorem draw_launched_gravity (T : Trig) (s : State) (h : s.shot = true) :
    (draw T s).gravity = s.gravity := by
  rw [draw_launched T s h]; split_ifs <;> simp

theorem draw_launched_ballx_initial (T : Trig) (s : State) (h : s.shot = true) :
    (draw T s).ballx_initial = s.ballx_initial + s.speedx_initial * (s.delta_t + 1 / 10) := by
  rw [draw_launched T s h]; split_ifs <;> simp

theorem draw_launched_bally_initial (T : Trig) (s : State) (h : s.shot = true) :
    (draw T s).bally_initial
      = s.bally_initial + (s.speedy_initial * (s.delta_t + 1 / 10)
          + 1 / 2 * s.gravity * (s.delta_t + 1 / 10) * (s.delta_t + 1 / 10)) := by
  rw [draw_launched T s h]; split_ifs <;> simp

theorem draw_launched_speedy_final (T : Trig) (s : State) (h : s.shot = true) :
    (draw T s).speedy_final = s.speedy_initial + s.gravity * (s.delta_t + 1 / 10) := by
  rw [draw_launched T s h]; split_ifs <;> simp

theorem draw_launched_speedx_initial (T : Trig) (s : State) (h : s.shot = true) :
    (draw T s).speedx_initial = (launchedTick s).speedx_initial := by
  rw [draw_launched T s h]; split_ifs <;> simp

theorem draw_launched_speedy_initial (T : Trig) (s : State) (h : s.shot = true) :
    (draw T s).speedy_initial = (launchedTick s).speedy_initial := by
  rw [draw_launched T s h]; split_ifs <;> simp

theorem draw_launched_flg (T : Trig) (s : State) (h : s.shot = true) :
    (draw T s).flg = (collide (integrate s)).flg := by
  rw [draw_launched T s h]; split_ifs <;> simp

theorem draw_launched_score (T : Trig) (s : State) (h : s.shot = true) :
    (draw T s).score = (collide (integrate s)).score := by
  rw [draw_launched T s h]; split_ifs <;> simp

theorem frames_succ (T : Trig) (n : ℕ) (s : State) :
    frames T (n + 1) s = draw T (frames T n s) := by
  simp [frames, Function.iterate_succ_apply']

theorem frames_zero (T : Trig) (s : State) : frames T 0 s = s := rfl

theorem run_append (T : Trig) (es fs : List Event) (s : State)
    (h : Event.key Key.ESCAPE Action.PRESS ∉ es) :
    run T (es ++ fs) s = run T fs (run T es s) := by
  induction es generalizing s with
  | nil => rfl
  | cons e es ih =>
    have he : e ≠ Event.key Key.ESCAPE Action.PRESS := fun hc => h (by simp [hc])
    have hes : Event.key Key.ESCAPE Action.PRESS ∉ es := fun hc => h (by simp [hc])
    cases e with
    | frame => simpa [run] using ih _ hes
    | key k act =>
      cases k <;> cases act <;> first
        | exact absurd rfl he
        | simpa [run] using ih _ hes

theorem run_replicate_frame (T : Trig) (n : ℕ) (s : State) :
    run T (List.replicate n Event.frame) s = frames T n s := by
  induction n generalizing s with
  | zero => rfl
  | succ n ih =>
    rw [List.replicate_succ, run, ih, frames, frames, Function.iterate_succ_apply]

theorem launchedTick_speedx_initial (s : State) :
    (launchedTick s).speedx_initial
      = if s.ballx_initial + s.speedx_initial * (s.delta_t + 1 / 10) - xoffset > 4
            ∨ s.ballx_initial + s.speedx_initial * (s.delta_t + 1 / 10) + 4 - xoffset < 0
        then -1 * (s.speedx_initial - s.speedx_initial * (5 / 100))
        else s.speedx_initial := by
  have hx : s.ballx_initial + s.speedx_initial * (s.delta_t + 1 / 10)
      = (collide (integrate s)).ballx_initial := by
    simp [integrate]
  have hv : s.speedx_initial = (collide (integrate s)).speedx_initial := by
    simp [integrate]
  rw [hx, hv]
  simp only [launchedTick, reboundY_speedx_initial, reboundX]
  split_ifs <;> rfl

theorem launchedTick_speedy_initial (s : State) :
    (launchedTick s).speedy_initial
      = if (launchedTick s).bally_initial < -(8 / 10)
            ∨ (launchedTick s).bally_initial > 8 - 8 / 10
        then -1 * ((launchedTick s).speedy_final - (launchedTick s).speedy_final * (5 / 100))
        else s.speedy_initial := by
  have hy : (launchedTick s).bally_initial = (reboundX (collide (integrate s))).bally_initial := by
    simp [launchedTick]
  have hf : (launchedTick s).speedy_final = (reboundX (collide (integrate s))).speedy_final := by
    simp [launchedTick]
  have hv : (reboundX (collide (integrate s))).speedy_initial = s.speedy_initial := by
    simp [integrate]
  rw [hy, hf, ← hv]
  simp only [launchedTick, reboundY]
  split_ifs <;> rfl

/-! ## Hit flags and score -/

theorem hitTest_flg_of_set (i j : Fin 3) (s : State) (h : s.flg j = true) :
    (hitTest i s).flg j = true := by
  simp only [hitTest]
  split_ifs
  · by_cases hji : j = i
    · subst hji; simp
    · simp [Function.update_noteq hji, h]
  · exact h
  · exact h

theorem hitTest_of_set (i : Fin 3) (s : State) (h : s.flg i = true) : hitTest i s = s := by
  simp [hitTest, h]

theorem hitTest_ledger (i : Fin 3) (s : State) :
    (hitTest i s).score - hitCount (hitTest i s) = s.score - hitCount s := by
  simp only [hitTest]
  split_ifs with h1 h2
  · simp only [Bool.not_eq_true', ] at h1
    simp only [hitCount, Fin.sum_univ_three]
    fin_cases i <;> simp [Function.update] at h1 ⊢ <;> simp [h1] <;> ring
  · rfl
  · rfl

theorem collide_flg_of_set (j : Fin 3) (s : State) (h : s.flg j = true) :
    (collide s).flg j = true := by
  simp only [collide, List.foldl]
  exact hitTest_flg_of_set _ _ _ (hitTest_flg_of_set _ _ _ (hitTest_flg_of_set _ _ _ h))

theorem collide_ledger (s : State) :
    (collide s).score - hitCount (collide s) = s.score - hitCount s := by
  simp only [collide, List.foldl]
  rw [hitTest_ledger, hitTest_ledger, hitTest_ledger]

theorem hitCount_congr {s s' : State} (h : s.flg = s'.flg) : hitCount s = hitCount s' := by
  simp [hitCount, h]

theorem draw_flg_of_set (T : Trig) (j : Fin 3) (s : State) (h : s.flg j = true) :
    (draw T s).flg j = true := by
  cases hs : s.shot
  · rw [draw_unlaunched T s hs]; simpa [trackMuzzle] using h
  · rw [draw_launched_flg T s hs]
    exact collide_flg_of_set j _ (by simpa [integrate] using h)

theorem draw_ledger (T : Trig) (s : State) :
    (draw T s).score - hitCount (draw T s) = s.score - hitCount s := by
  cases hs : s.shot
  · rw [draw_unlaunched T s hs,
      hitCount_congr (show (incrementAngles (trackMuzzle T s)).flg = s.flg by
        simp [trackMuzzle])]
    simp [trackMuzzle]
  · rw [draw_launched_score T s hs, hitCount_congr (draw_launched_flg T s hs), collide_ledger,
      hitCount_congr (show (integrate s).flg = s.flg from rfl)]
    rfl

theorem keyboard_flg (k : Key) (act : Action) (s : State) :
    (keyboard k act s).flg = s.flg := by
  cases k <;> cases act <;> rfl

theorem keyboard_score (k : Key) (act : Action) (s : State) :
    (keyboard k act s).score = s.score := by
  cases k <;> cases act <;> rfl

theorem run_flg_of_set (T : Trig) (j : Fin 3) (es : List Event) (s : State)
    (h : s.flg j = true) : (run T es s).flg j = true := by
  induction es generalizing s with
  | nil => exact h
  | cons e es ih =>
    cases e with
    | frame => exact ih _ (draw_flg_of_set T j s h)
    | key k act =>
      cases k <;> cases act <;> first
        | exact h
        | exact ih _ (by rw [keyboard_flg]; exact h)

theorem run_ledger (T : Trig) (es : List Event) (s : State) :
    (run T es s).score - hitCount (run T es s) = s.score - hitCount s := by
  induction es generalizing s with
  | nil => rfl
  | cons e es ih =>
    cases e with
    | frame => simp only [run]; rw [ih, draw_ledger]
    | key k act =>
      cases k <;> cases act <;> first
        | rfl
        | (simp only [run]; rw [ih, hitCount_congr (keyboard_flg _ _ s), keyboard_score])

/-- When flags only get set between `s` and `s'`, the growth of `hitCount` is
the number of targets newly hit. -/
theorem hitCount_growth (s s' : State) (hmono : ∀ j, s.flg j = true → s'.flg j = true) :
    hitCount s' - hitCount s
      = ((Finset.univ.filter (fun j : Fin 3 => s.flg j = false ∧ s'.flg j = true)).card : ℤ) := by
  rw [Finset.card_filter]
  simp only [hitCount, Fin.sum_univ_three]
  have h0 := hmono 0
  have h1 := hmono 1
  have h2 := hmono 2
  rcases Bool.eq_false_or_eq_true (s.flg 0) with a0 | a0 <;>
  rcases Bool.eq_false_or_eq_true (s.flg 1) with a1 | a1 <;>
  rcases Bool.eq_false_or_eq_true (s.flg 2) with a2 | a2 <;>
  rcases Bool.eq_false_or_eq_true (s'.flg 0) with b0 | b0 <;>
  rcases Bool.eq_false_or_eq_true (s'.flg 1) with b1 | b1 <;>
  rcases Bool.eq_false_or_eq_true (s'.flg 2) with b2 | b2 <;>
  simp_all

theorem hitTest_flg_iff (i j : Fin 3) (s : State) :
    (hitTest j s).flg i = true
      ↔ s.flg i = true ∨ (j = i ∧ inRange i s.ballx_initial s.bally_initial) := by
  simp only [hitTest]
  by_cases hji : j = i
  · subst hji
    split_ifs with h1 h2
    · simp [h2]
    · simp only [Bool.not_eq_true', ] at h1
      simp [h1, h2]
    · simp only [Bool.not_eq_true', Bool.not_eq_false] at h1
      simp [h1]
  · have hij : i ≠ j := fun h => hji h.symm
    split_ifs <;> simp [hji, Function.update_noteq hij]

theorem collide_flg_iff (i : Fin 3) (s : State) :
    (collide s).flg i = true ↔ s.flg i = true ∨ inRange i s.ballx_initial s.bally_initial := by
  simp only [collide, List.foldl, hitTest_flg_iff, hitTest_ballx_initial,
    hitTest_bally_initial]
  fin_cases i <;> simp

theorem not_inRange_zero (i : Fin 3) (y : ℚ) : ¬ inRange i 0 y := by
  fin_cases i
  · simp only [inRange, a, radius]; norm_num; nlinarith [mul_self_nonneg (3 - y)]
  · simp only [inRange, a, radius]; norm_num; nlinarith [mul_self_nonneg (37 / 10 - y)]
  · simp only [inRange, a, radius]; norm_num; nlinarith [mul_self_nonneg (6 / 5 - y)]

theorem hitCount_of_none (s : State) (h : ∀ i, s.flg i = false) : hitCount s = 0 := by
  simp [hitCount, h]

/-! ## Key events -/

theorem keyboard_speedx_initial (k : Key) (act : Action) (s : State) :
    (keyboard k act s).speedx_initial = s.speedx_initial := by
  cases k <;> cases act <;> rfl

theorem keyboard_speedy_initial (k : Key) (act : Action) (s : State) :
    (keyboard k act s).speedy_initial = s.speedy_initial := by
  cases k <;> cases act <;> rfl

/-- Key events alone never write the launch velocity. -/
theorem run_keys_velocity (T : Trig) (ks : List Event) (s : State) (h : Event.frame ∉ ks) :
    (run T ks s).speedx_initial = s.speedx_initial
    ∧ (run T ks s).speedy_initial = s.speedy_initial := by
  induction ks generalizing s with
  | nil => exact ⟨rfl, rfl⟩
  | cons e ks ih =>
    have hks : Event.frame ∉ ks := fun hc => h (List.mem_cons_of_mem _ hc)
    cases e with
    | frame => exact absurd (List.mem_cons_self _ _) h
    | key k act =>
      cases k <;> cases act <;> first
        | exact ⟨rfl, rfl⟩
        | (simp only [run]
           rw [(ih _ hks).1, (ih _ hks).2, keyboard_speedx_initial, keyboard_speedy_initial]
           exact ⟨rfl, rfl⟩)

/-! ## Angle update -/

/-- Within the bounds the angle update adds the step of 5 times the direction. -/
theorem incrementAngles_step (s : State) (hlo : -90 ≤ s.cannon_rotation)
    (hhi : s.cannon_rotation ≤ 90) (hst : s.cannon_rot_status = true) :
    (incrementAngles s).cannon_rotation = s.cannon_rotation + 5 * s.cannon_rot_dir := by
  simp only [incrementAngles, hst, if_true, if_neg (not_lt.mpr hhi), if_neg (not_lt.mpr hlo)]
  ring

/-- Above 90 the angle update resets the angle to -90 and adds no step. -/
theorem incrementAngles_above (s : State) (h : 90 < s.cannon_rotation) :
    (incrementAngles s).cannon_rotation = -90 := by
  simp only [incrementAngles, gt_iff_lt, if_pos h]
  split_ifs <;> simp

/-- A launched frame whose updated height is below -2 returns before the angle
update. -/
theorem draw_below_floor (T : Trig) (s : State) (hshot : s.shot = true)
    (hy : (launchedTick s).bally_initial < -2) :
    (draw T s).cannon_rotation = s.cannon_rotation := by
  rw [draw_launched T s hshot, if_pos hy]
  simp [launchedTick, integrate]

/-! ## Counting hits -/

theorem hitCount_eq_card (s : State) :
    hitCount s = ((Finset.univ.filter (fun j : Fin 3 => s.flg j = true)).card : ℤ) := by
  rw [Finset.card_filter]
  simp [hitCount]

theorem card_flags_le_three (s : State) :
    (Finset.univ.filter (fun j : Fin 3 => s.flg j = true)).card ≤ 3 := by
  have h := Finset.card_filter_le (Finset.univ : Finset (Fin 3)) (fun j => s.flg j = true)
  simpa using h

/-- No point lies in two hit discs: the crude bound
`|c_i - c_j|^2 ≤ 2 (R_i^2 + R_j^2)` already fails for every pair. -/
theorem inRange_disjoint (i j : Fin 3) (x y : ℚ) (hij : i ≠ j) :
    ¬ (inRange i x y ∧ inRange j x y) := by
  rintro ⟨hi, hj⟩
  fin_cases i <;> fin_cases j <;> first
    | exact hij rfl
    | (simp only [inRange, a, radius] at hi hj
       norm_num at hi hj
       nlinarith [sq_nonneg (43 / 10 + 9 / 4 - 2 * x), sq_nonneg (3 + 37 / 10 - 2 * y),
         sq_nonneg (43 / 10 + 73 / 10 - 2 * x), sq_nonneg (3 + 6 / 5 - 2 * y),
         sq_nonneg (9 / 4 + 73 / 10 - 2 * x), sq_nonneg (37 / 10 + 6 / 5 - 2 * y)])

/-- A flag that a frame sets belongs to a target whose hit disc holds the
updated position, and the frame is a launched one. -/
theorem draw_new_flag (T : Trig) (s : State) (i : Fin 3) (h0 : s.flg i = false)
    (h1 : (draw T s).flg i = true) :
    s.shot = true ∧ inRange i (draw T s).ballx_initial (draw T s).bally_initial := by
  cases hs : s.shot
  · rw [draw_unlaunched T s hs] at h1
    have : s.flg i = true := by simpa [trackMuzzle] using h1
    rw [h0] at this
    exact Bool.noConfusion this
  · refine ⟨rfl, ?_⟩
    rw [draw_launched_flg T s hs, collide_flg_iff] at h1
    have hi : (integrate s).flg i = false := h0
    rw [hi] at h1
    have hx : (integrate s).ballx_initial = (draw T s).ballx_initial := by
      rw [draw_launched_ballx_initial T s hs]; rfl
    have hy : (integrate s).bally_initial = (draw T s).bally_initial := by
      rw [draw_launched_bally_initial T s hs]; rfl
    rw [hx, hy] at h1
    simpa using h1

/-! ## Transforms applied to points -/

theorem translate_mulVec (p q r x y z w : ℚ) :
    (translate p q r).mulVec ![x, y, z, w] = ![x + p * w, y + q * w, z + r * w, w] := by
  ext i
  fin_cases i <;> simp [translate, Matrix.mulVec, Matrix.dotProduct, Fin.sum_univ_four]

theorem rotate_mulVec (T : Trig) (d x y z w : ℚ) :
    (rotate T d).mulVec ![x, y, z, w]
      = ![T.cos d * x - T.sin d * y, T.sin d * x + T.cos d * y, z, w] := by
  ext i
  fin_cases i
  · simp [rotate, Matrix.mulVec, Matrix.dotProduct, Fin.sum_univ_four]; ring
  · simp [rotate, Matrix.mulVec, Matrix.dotProduct, Fin.sum_univ_four]
  · simp [rotate, Matrix.mulVec, Matrix.dotProduct, Fin.sum_univ_four]
  · simp [rotate, Matrix.mulVec, Matrix.dotProduct, Fin.sum_univ_four]

/-- A point `(x, y)` of the cannon's rotated frame, in the coordinates in which
the pivot sits at (1, 0.3). -/
theorem cannonFrame_mulVec (T : Trig) (d x y : ℚ) :
    (translate 1 (3 / 10) 0 * rotate T d).mulVec ![x, y, 0, 1]
      = ![1 + (T.cos d * x - T.sin d * y), 3 / 10 + (T.sin d * x + T.cos d * y), 0, 1] := by
  rw [← Matrix.mulVec_mulVec, rotate_mulVec, translate_mulVec]
  ext i
  fin_cases i <;> simp <;> ring

theorem mem_drawCalls_cannon (T : Trig) (VP : Mat4) (s : State) :
    (Mesh.cannon, mvpCannon T VP s) ∈ drawCalls T VP s := by
  simp [drawCalls]

theorem mem_drawCalls_ball (T : Trig) (VP : Mat4) (s : State) (m : Mat4)
    (h : mvpBall T VP s = some m) : (Mesh.ball, m) ∈ drawCalls T VP s := by
  simp [drawCalls, h]

theorem mem_drawCalls_target (T : Trig) (VP : Mat4) (s : State) (i : Fin 3)
    (h : s.flg i = false) : (targetMesh i, mvpTargetBall VP i) ∈ drawCalls T VP s := by
  fin_cases i <;> simp [drawCalls, targetMesh] at h ⊢ <;> simp [h]

/-! ## The binary32 reading: which globals each part leaves alone -/

@[simp] theorem incrementAngles32_cannon_rot_dir (s : State) :
    (incrementAngles32 s).cannon_rot_dir = s.cannon_rot_dir := by
  simp only [incrementAngles32]; split_ifs <;> rfl
@[simp] theorem incrementAngles32_cannon_rot_status (s : State) :
    (incrementAngles32 s).cannon_rot_status = s.cannon_rot_status := by
  simp only [incrementAngles32]; split_ifs <;> rfl
@[simp] theorem incrementAngles32_shot (s : State) :
    (incrementAngles32 s).shot = s.shot := by
  simp only [incrementAngles32]; split_ifs <;> rfl
@[simp] theorem incrementAngles32_speed (s : State) :
    (incrementAngles32 s).speed = s.speed := by
  simp only [incrementAngles32]; split_ifs <;> rfl
@[simp] theorem incrementAngles32_delta_t (s : State) :
    (incrementAngles32 s).delta_t = s.delta_t := by
  simp only [incrementAngles32]; split_ifs <;> rfl
@[simp] theorem incrementAngles32_gravity (s : State) :
    (incrementAngles32 s).gravity = s.gravity := by
  simp only [incrementAngles32]; split_ifs <;> rfl
@[simp] theorem incrementAngles32_ballx_initial (s : State) :
    (incrementAngles32 s).ballx_initial = s.ballx_initial := by
  simp only [incrementAngles32]; split_ifs <;> rfl
@[simp] theorem incrementAngles32_bally_initial (s : State) :
    (incrementAngles32 s).bally_initial = s.bally_initial := by
  simp only [incrementAngles32]; split_ifs <;> rfl
@[simp] theorem incrementAngles32_speedx_initial (s : State) :
    (incrementAngles32 s).speedx_initial = s.speedx_initial := by
  simp only [incrementAngles32]; split_ifs <;> rfl
@[simp] theorem incrementAngles32_speedy_initial (s : State) :
    (incrementAngles32 s).speedy_initial = s.speedy_initial := by
  simp only [incrementAngles32]; split_ifs <;> rfl
@[simp] theorem incrementAngles32_speedy_final (s : State) :
    (incrementAngles32 s).speedy_final = s.speedy_final := by
  simp only [incrementAngles32]; split_ifs <;> rfl
@[simp] theorem incrementAngles32_flg (s : State) :
    (incrementAngles32 s).flg = s.flg := by
  simp only [incrementAngles32]; split_ifs <;> rfl
@[simp] theorem incrementAngles32_score (s : State) :
    (incrementAngles32 s).score = s.score := by
  simp only [incrementAngles32]; split_ifs <;> rfl

@[simp] theorem hitTest32_cannon_rot_dir (i : Fin 3) (s : State) :
    (hitTest32 i s).cannon_rot_dir = s.cannon_rot_dir := by
  simp only [hitTest32]; split_ifs <;> rfl
@[simp] theorem hitTest32_cannon_rot_status (i : Fin 3) (s : State) :
    (hitTest32 i s).cannon_rot_status = s.cannon_rot_status := by
  simp only [hitTest32]; split_ifs <;> rfl
@[simp] theorem hitTest32_shot (i : Fin 3) (s : State) :
    (hitTest32 i s).shot = s.shot := by
  simp only [hitTest32]; split_ifs <;> rfl
@[simp] theorem hitTest32_speed (i : Fin 3) (s : State) :
    (hitTest32 i s).speed = s.speed := by
  simp only [hitTest32]; split_ifs <;> rfl
@[simp] theorem hitTest32_delta_t (i : Fin 3) (s : State) :
    (hitTest32 i s).delta_t = s.delta_t := by
  simp only [hitTest32]; split_ifs <;> rfl
@[simp] theorem hitTest32_gravity (i : Fin 3) (s : State) :
    (hitTest32 i s).gravity = s.gravity := by
  simp only [hitTest32]; split_ifs <;> rfl
@[simp] theorem hitTest32_cannon_rotation (i : Fin 3) (s : State) :
    (hitTest32 i s).cannon_rotation = s.cannon_rotation := by
  simp only [hitTest32]; split_ifs <;> rfl
@[simp] theorem hitTest32_ballx_initial (i : Fin 3) (s : State) :
    (hitTest32 i s).ballx_initial = s.ballx_initial := by
  simp only [hitTest32]; split_ifs <;> rfl
@[simp] theorem hitTest32_bally_initial (i : Fin 3) (s : State) :
    (hitTest32 i s).bally_initial = s.bally_initial := by
  simp only [hitTest32]; split_ifs <;> rfl
@[simp] theorem hitTest32_speedx_initial (i : Fin 3) (s : State) :
    (hitTest32 i s).speedx_initial = s.speedx_initial := by
  simp only [hitTest32]; split_ifs <;> rfl
@[simp] theorem hitTest32_speedy_initial (i : Fin 3) (s : State) :
    (hitTest32 i s).speedy_initial = s.speedy_initial := by
  simp only [hitTest32]; split_ifs <;> rfl
@[simp] theorem hitTest32_speedy_final (i : Fin 3) (s : State) :
    (hitTest32 i s).speedy_final = s.speedy_final := by
  simp only [hitTest32]; split_ifs <;> rfl

@[simp] theorem collide32_cannon_rot_dir (s : State) :
    (collide32 s).cannon_rot_dir = s.cannon_rot_dir := by
  simp [collide32]
@[simp] theorem collide32_cannon_rot_status (s : State) :
    (collide32 s).cannon_rot_status = s.cannon_rot_status := by
  simp [collide32]
@[simp] theorem collide32_shot (s : State) :
    (collide32 s).shot = s.shot := by
  simp [collide32]
@[simp] theorem collide32_speed (s : State) :
    (collide32 s).speed = s.speed := by
  simp [collide32]
@[simp] theorem collide32_delta_t (s : State) :
    (collide32 s).delta_t = s.delta_t := by
  simp [collide32]
@[simp] theorem collide32_gravity (s : State) :
    (collide32 s).gravity = s.gravity := by
  simp [collide32]
@[simp] theorem collide32_cannon_rotation (s : State) :
    (collide32 s).cannon_rotation = s.cannon_rotation := by
  simp [collide32]
@[simp] theorem collide32_ballx_initial (s : State) :
    (collide32 s).ballx_initial = s.ballx_initial := by
  simp [collide32]
@[simp] theorem collide32_bally_initial (s : State) :
    (collide32 s).bally_initial = s.bally_initial := by
  simp [collide32]
@[simp] theorem collide32_speedx_initial (s : State) :
    (collide32 s).speedx_initial = s.speedx_initial := by
  simp [collide32]
@[simp] theorem collide32_speedy_initial (s : State) :
    (collide32 s).speedy_initial = s.speedy_initial := by
  simp [collide32]
@[simp] theorem collide32_speedy_final (s : State) :
    (collide32 s).speedy_final = s.speedy_final := by
  simp [collide32]

@[simp] theorem reboundX32_cannon_rot_dir (s : State) :
    (reboundX32 s).cannon_rot_dir = s.cannon_rot_dir := by
  simp only [reboundX32]; split_ifs <;> rfl
@[simp] theorem reboundX32_cannon_rot_status (s : State) :
    (reboundX32 s).cannon_rot_status = s.cannon_rot_status := by
  simp only [reboundX32]; split_ifs <;> rfl
@[simp] theorem reboundX32_shot (s : State) :
    (reboundX32 s).shot = s.shot := by
  simp only [reboundX32]; split_ifs <;> rfl
@[simp] theorem reboundX32_speed (s : State) :
    (reboundX32 s).speed = s.speed := by
  simp only [reboundX32]; split_ifs <;> rfl
@[simp] theorem reboundX32_delta_t (s : State) :
    (reboundX32 s).delta_t = s.delta_t := by
  simp only [reboundX32]; split_ifs <;> rfl
@[simp] theorem reboundX32_gravity (s : State) :
    (reboundX32 s).gravity = s.gravity := by
  simp only [reboundX32]; split_ifs <;> rfl
@[simp] theorem reboundX32_cannon_rotation (s : State) :
    (reboundX32 s).cannon_rotation = s.cannon_rotation := by
  simp only [reboundX32]; split_ifs <;> rfl
@[simp] theorem reboundX32_ballx_initial (s : State) :
    (reboundX32 s).ballx_initial = s.ballx_initial := by
  simp only [reboundX32]; split_ifs <;> rfl
@[simp] theorem reboundX32_bally_initial (s : State) :
    (reboundX32 s).bally_initial = s.bally_initial := by
  simp only [reboundX32]; split_ifs <;> rfl
@[simp] theorem reboundX32_speedy_initial (s : State) :
    (reboundX32 s).speedy_initial = s.speedy_initial := by
  simp only [reboundX32]; split_ifs <;> rfl
@[simp] theorem reboundX32_speedy_final (s : State) :
    (reboundX32 s).speedy_final = s.speedy_final := by
  simp only [reboundX32]; split_ifs <;> rfl
@[simp] theorem reboundX32_flg (s : State) :
    (reboundX32 s).flg = s.flg := by
  simp only [reboundX32]; split_ifs <;> rfl
@[simp] theorem reboundX32_score (s : State) :
    (reboundX32 s).score = s.score := by
  simp only [reboundX32]; split_ifs <;> rfl

@[simp] theorem reboundY32_cannon_rot_dir (s : State) :
    (reboundY32 s).cannon_rot_dir = s.cannon_rot_dir := by
  simp only [reboundY32]; split_ifs <;> rfl
@[simp] theorem reboundY32_cannon_rot_status (s : State) :
    (reboundY32 s).cannon_rot_status = s.cannon_rot_status := by
  simp only [reboundY32]; split_ifs <;> rfl
@[simp] theorem reboundY32_shot (s : State) :
    (reboundY32 s).shot = s.shot := by
  simp only [reboundY32]; split_ifs <;> rfl
@[simp] theorem reboundY32_speed (s : State) :
    (reboundY32 s).speed = s.speed := by
  simp only [reboundY32]; split_ifs <;> rfl
@[simp] theorem reboundY32_delta_t (s : State) :
    (reboundY32 s).delta_t = s.delta_t := by
  simp only [reboundY32]; split_ifs <;> rfl
@[simp] theorem reboundY32_gravity (s : State) :
    (reboundY32 s).gravity = s.gravity := by
  simp only [reboundY32]; split_ifs <;> rfl
@[simp] theorem reboundY32_cannon_rotation (s : State) :
    (reboundY32 s).cannon_rotation = s.cannon_rotation := by
  simp only [reboundY32]; split_ifs <;> rfl
@[simp] theorem reboundY32_ballx_initial (s : State) :
    (reboundY32 s).ballx_initial = s.ballx_initial := by
  simp only [reboundY32]; split_ifs <;> rfl
@[simp] theorem reboundY32_bally_initial (s : State) :
    (reboundY32 s).bally_initial = s.bally_initial := by
  simp only [reboundY32]; split_ifs <;> rfl
@[simp] theorem reboundY32_speedx_initial (s : State) :
    (reboundY32 s).speedx_initial = s.speedx_initial := by
  simp only [reboundY32]; split_ifs <;> rfl
@[simp] theorem reboundY32_speedy_final (s : State) :
    (reboundY32 s).speedy_final = s.speedy_final := by
  simp only [reboundY32]; split_ifs <;> rfl
@[simp] theorem reboundY32_flg (s : State) :
    (reboundY32 s).flg = s.flg := by
  simp only [reboundY32]; split_ifs <;> rfl
@[simp] theorem reboundY32_score (s : State) :
    (reboundY32 s).score = s.score := by
  simp only [reboundY32]; split_ifs <;> rfl

/-! ## The binary32 reading: `draw32` and `launchedTick32` unfolded -/

theorem draw32_unlaunched (T : Trig) (s : State) (h : s.shot = false) :
    draw32 T s = incrementAngles32 (trackMuzzle32 T s) := by
  simp [draw32, h]

theorem draw32_launched (T : Trig) (s : State) (h : s.shot = true) :
    draw32 T s = if (launchedTick32 s).bally_initial < -2 then launchedTick32 s
      else incrementAngles32 (launchedTick32 s) := by
  simp [draw32, h]

@[simp] theorem launchedTick32_shot (s : State) : (launchedTick32 s).shot = s.shot := by
  simp [launchedTick32, integrate32]

@[simp] theorem launchedTick32_delta_t (s : State) :
    (launchedTick32 s).delta_t = addTenth32 s.delta_t := by
  simp [launchedTick32, integrate32]

@[simp] theorem launchedTick32_ballx_initial (s : State) :
    (launchedTick32 s).ballx_initial
      = fl32 (s.ballx_initial + fl32 (s.speedx_initial * addTenth32 s.delta_t)) := by
  simp [launchedTick32, integrate32]

@[simp] theorem launchedTick32_bally_initial (s : State) :
    (launchedTick32 s).bally_initial
      = fl32 (fl64 (s.bally_initial
          + fl64 (fl32 (s.speedy_initial * addTenth32 s.delta_t)
              + fl64 (fl64 (fl64 (fl64 (1 / 2) * s.gravity) * addTenth32 s.delta_t)
                  * addTenth32 s.delta_t)))) := by
  simp only [launchedTick32, integrate32, reboundY32_bally_initial, reboundX32_bally_initial,
    collide32_bally_initial]

@[simp] theorem launchedTick32_speedy_final (s : State) :
    (launchedTick32 s).speedy_final
      = fl32 (s.speedy_initial + fl32 (s.gravity * addTenth32 s.delta_t)) := by
  simp [launchedTick32, integrate32]

@[simp] theorem launchedTick32_flg (s : State) :
    (launchedTick32 s).flg = (collide32 (integrate32 s)).flg := by
  simp [launchedTick32]

@[simp] theorem launchedTick32_score (s : State) :
    (launchedTick32 s).score = (collide32 (integrate32 s)).score := by
  simp [launchedTick32]

theorem launchedTick32_speedx_initial (s : State) :
    (launchedTick32 s).speedx_initial
      = if fl32 ((launchedTick32 s).ballx_initial - xoffset32) > 4
            ∨ fl32 (fl32 ((launchedTick32 s).ballx_initial + 4) - xoffset32) < 0
        then -1 * fl32 (s.speedx_initial - fl32 (s.speedx_initial * fl32 (5 / 100)))
        else s.speedx_initial := by
  have hx : (launchedTick32 s).ballx_initial = (collide32 (integrate32 s)).ballx_initial := by
    simp [launchedTick32]
  have hv : s.speedx_initial = (collide32 (integrate32 s)).speedx_initial := by
    simp [integrate32]
  rw [hx, hv]
  simp only [launchedTick32, reboundY32_speedx_initial, reboundX32]
  split_ifs <;> rfl

theorem launchedTick32_speedy_initial (s : State) :
    (launchedTick32 s).speedy_initial
      = if (launchedTick32 s).bally_initial < -fl32 (8 / 10)
            ∨ (launchedTick32 s).bally_initial > fl32 (8 - fl32 (8 / 10))
        then -1 * fl32 ((launchedTick32 s).speedy_final
              - fl32 ((launchedTick32 s).speedy_final * fl32 (5 / 100)))
        else s.speedy_initial := by
  have hy : (launchedTick32 s).bally_initial
      = (reboundX32 (collide32 (integrate32 s))).bally_initial := by
    simp [launchedTick32]
  have hf : (launchedTick32 s).speedy_final
      = (reboundX32 (collide32 (integrate32 s))).speedy_final := by
    simp [launchedTick32]
  have hv : (reboundX32 (collide32 (integrate32 s))).speedy_initial = s.speedy_initial := by
    simp [integrate32]
  rw [hy, hf, ← hv]
  simp only [launchedTick32, reboundY32]
  split_ifs <;> rfl

/-- On a launched frame every global but the cannon angle is as `launchedTick32`
leaves it. -/
theorem draw32_launched_fields (T : Trig) (s : State) (h : s.shot = true) :
    (draw32 T s).shot = true
    ∧ (draw32 T s).delta_t = (launchedTick32 s).delta_t
    ∧ (draw32 T s).ballx_initial = (launchedTick32 s).ballx_initial
    ∧ (draw32 T s).bally_initial = (launchedTick32 s).bally_initial
    ∧ (draw32 T s).speedx_initial = (launchedTick32 s).speedx_initial
    ∧ (draw32 T s).speedy_initial = (launchedTick32 s).speedy_initial
    ∧ (draw32 T s).speedy_final = (launchedTick32 s).speedy_final
    ∧ (draw32 T s).flg = (launchedTick32 s).flg
    ∧ (draw32 T s).score = (launchedTick32 s).score := by
  rw [draw32_launched T s h]
  split_ifs
  · simp [h]
  · simp only [incrementAngles32_shot, incrementAngles32_delta_t,
      incrementAngles32_ballx_initial, incrementAngles32_bally_initial,
      incrementAngles32_speedx_initial, incrementAngles32_speedy_initial,
      incrementAngles32_speedy_final, incrementAngles32_flg, incrementAngles32_score,
      launchedTick32_shot, h, and_self]

/-! ## The binary32 reading: hit flags and score -/

theorem hitTest32_flg_of_set (i j : Fin 3) (s : State) (h : s.flg j = true) :
    (hitTest32 i s).flg j = true := by
  simp only [hitTest32]
  split_ifs
  · by_cases hji : j = i
    · subst hji; simp
    · simp [Function.update_noteq hji, h]
  · exact h
  · exact h

theorem hitTest32_ledger (i : Fin 3) (s : State) :
    (hitTest32 i s).score - hitCount (hitTest32 i s) = s.score - hitCount s := by
  simp only [hitTest32]
  split_ifs with h1 h2
  · simp only [Bool.not_eq_true', ] at h1
    simp only [hitCount, Fin.sum_univ_three]
    fin_cases i <;> simp [Function.update] at h1 ⊢ <;> simp [h1] <;> ring
  · rfl
  · rfl

theorem collide32_flg_of_set (j : Fin 3) (s : State) (h : s.flg j = true) :
    (collide32 s).flg j = true := by
  simp only [collide32, List.foldl]
  exact hitTest32_flg_of_set _ _ _ (hitTest32_flg_of_set _ _ _ (hitTest32_flg_of_set _ _ _ h))

theorem collide32_ledger (s : State) :
    (collide32 s).score - hitCount (collide32 s) = s.score - hitCount s := by
  simp only [collide32, List.foldl]
  rw [hitTest32_ledger, hitTest32_ledger, hitTest32_ledger]

theorem hitTest32_flg_iff (i j : Fin 3) (s : State) :
    (hitTest32 j s).flg i = true
      ↔ s.flg i = true ∨ (j = i ∧ inRange32 i s.ballx_initial s.bally_initial) := by
  simp only [hitTest32]
  by_cases hji : j = i
  · subst hji
    split_ifs with h1 h2
    · simp [h2]
    · simp only [Bool.not_eq_true', ] at h1
      simp [h1, h2]
    · simp only [Bool.not_eq_true', Bool.not_eq_false] at h1
      simp [h1]
  · have hij : i ≠ j := fun h => hji h.symm
    split_ifs <;> simp [hji, Function.update_noteq hij]

theorem collide32_flg_iff (i : Fin 3) (s : State) :
    (collide32 s).flg i = true
      ↔ s.flg i = true ∨ inRange32 i s.ballx_initial s.bally_initial := by
  simp only [collide32, List.foldl, hitTest32_flg_iff, hitTest32_ballx_initial,
    hitTest32_bally_initial]
  fin_cases i <;> simp

theorem draw32_flg_of_set (T : Trig) (j : Fin 3) (s : State) (h : s.flg j = true) :
    (draw32 T s).flg j = true := by
  cases hs : s.shot
  · rw [draw32_unlaunched T s hs]; simpa [trackMuzzle32] using h
  · rw [(draw32_launched_fields T s hs).2.2.2.2.2.2.2.1, launchedTick32_flg]
    exact collide32_flg_of_set j _ (by simpa [integrate32] using h)

theorem draw32_ledger (T : Trig) (s : State) :
    (draw32 T s).score - hitCount (draw32 T s) = s.score - hitCount s := by
  cases hs : s.shot
  · rw [draw32_unlaunched T s hs,
      hitCount_congr (show (incrementAngles32 (trackMuzzle32 T s)).flg = s.flg by
        simp [trackMuzzle32])]
    simp [trackMuzzle32]
  · rw [(draw32_launched_fields T s hs).2.2.2.2.2.2.2.2, launchedTick32_score,
      hitCount_congr (show (draw32 T s).flg = (collide32 (integrate32 s)).flg by
        rw [(draw32_launched_fields T s hs).2.2.2.2.2.2.2.1, launchedTick32_flg]),
      collide32_ledger, hitCount_congr (show (integrate32 s).flg = s.flg from rfl)]
    rfl

/-! ## The binary32 reading: elapsed time -/

theorem keyboard32_delta_t (k : Key) (act : Action) (s : State) :
    (keyboard32 k act s).delta_t = s.delta_t := by
  cases k <;> cases act <;> rfl

theorem draw32_delta_t (T : Trig) (s : State) :
    (draw32 T s).delta_t = if s.shot = true then addTenth32 s.delta_t else s.delta_t := by
  cases hs : s.shot
  · rw [draw32_unlaunched T s hs]; simp [trackMuzzle32]
  · rw [(draw32_launched_fields T s hs).2.1, launchedTick32_delta_t]; simp

theorem run32_delta_t (T : Trig) (es : List Event) (s : State) :
    (run32 T es s).delta_t = addTenth32^[launchedTicks32 T es s] s.delta_t := by
  induction es generalizing s with
  | nil => simp [run32, launchedTicks32]
  | cons e es ih =>
    cases e with
    | frame =>
      simp only [run32, launchedTicks32]
      rw [ih, draw32_delta_t]
      split_ifs
      · rw [Nat.add_comm, Function.iterate_succ_apply]
      · simp
    | key k act =>
      cases k <;> cases act <;> first
        | (simp only [run32, launchedTicks32]; rw [ih, keyboard32_delta_t])
        | simp [run32, launchedTicks32]

/-- Frames entered with `shot` set are all launched ticks. -/
theorem launchedTicks32_frames (T : Trig) (n : ℕ) (s : State) (h : s.shot = true) :
    launchedTicks32 T (List.replicate n Event.frame) s = n := by
  induction n generalizing s with
  | zero => rfl
  | succ n ih =>
    simp only [List.replicate_succ, launchedTicks32]
    rw [ih _ (draw32_launched_fields T s h).1, if_pos h, Nat.add_comm]

/-- The replay `straightUp n` has `n` launched ticks. -/
theorem launchedTicks32_straightUp (T : Trig) (n : ℕ) :
    launchedTicks32 T (straightUp n) init32 = n := by
  have hs : straightUp n
      = Event.frame :: Event.key Key.SPACE Action.RELEASE :: List.replicate n Event.frame := rfl
  have h0 : init32.shot = false := rfl
  rw [hs]
  simp only [launchedTicks32]
  rw [launchedTicks32_frames T n _ rfl]
  simp [h0]

/-! ## The binary32 reading: rounding errors -/

/-- With enough fuel `log2Fuel` brackets `n` between two powers of 2. -/
theorem log2Fuel_spec (k n : ℕ) (h1 : 1 ≤ n) (hk : n ≤ k) :
    2 ^ log2Fuel k n ≤ n ∧ n < 2 ^ (log2Fuel k n + 1) := by
  induction k generalizing n with
  | zero => omega
  | succ k ih =>
    unfold log2Fuel
    split_ifs with h2
    · have hdiv1 : 1 ≤ n / 2 := by omega
      have hdivk : n / 2 ≤ k := by omega
      obtain ⟨ha, hb⟩ := ih (n / 2) hdiv1 hdivk
      constructor
      · rw [pow_succ]; omega
      · rw [pow_succ]; omega
    · have : n = 1 := by omega
      subst this
      simp

/-- `natLog2 n` is the position of the leading binary digit of `n`. -/
theorem natLog2_spec (n : ℕ) (h1 : 1 ≤ n) :
    2 ^ natLog2 n ≤ n ∧ n < 2 ^ (natLog2 n + 1) :=
  log2Fuel_spec n n h1 le_rfl

/-- The power of 2 with exponent `ilog2 q` does not exceed `q`. -/
theorem ilog2_le (q : ℚ) (hq : 0 < q) : (2 : ℚ) ^ ilog2 q ≤ q := by
  unfold ilog2
  split_ifs with h
  · exact h
  · have hnum : 0 < q.num := Rat.num_pos.mpr hq
    have hn1 : 1 ≤ q.num.natAbs := by omega
    have hd1 : 1 ≤ q.den := q.den_pos
    obtain ⟨ha, -⟩ := natLog2_spec q.num.natAbs hn1
    obtain ⟨-, hb⟩ := natLog2_spec q.den hd1
    have hqeq : q = (q.num.natAbs : ℚ) / (q.den : ℚ) := by
      have hnn : ((q.num.natAbs : ℕ) : ℚ) = (q.num : ℚ) := by
        rw [Nat.cast_natAbs, abs_of_pos hnum]
      rw [hnn]
      exact (Rat.num_div_den q).symm
    have haq : ((2 : ℚ) ^ natLog2 q.num.natAbs) ≤ (q.num.natAbs : ℚ) := by exact_mod_cast ha
    have hbq : (q.den : ℚ) < (2 : ℚ) ^ (natLog2 q.den + 1) := by exact_mod_cast hb
    have hdpos : (0 : ℚ) < q.den := by exact_mod_cast hd1
    have hexp : (2 : ℚ) ^ ((natLog2 q.num.natAbs : ℤ) - (natLog2 q.den : ℤ) - 1)
        = (2 : ℚ) ^ natLog2 q.num.natAbs / (2 : ℚ) ^ (natLog2 q.den + 1) := by
      rw [show ((natLog2 q.num.natAbs : ℤ) - (natLog2 q.den : ℤ) - 1)
          = (natLog2 q.num.natAbs : ℤ) - ((natLog2 q.den + 1 : ℕ) : ℤ) by push_cast; ring]
      rw [zpow_sub₀ (by norm_num : (2 : ℚ) ≠ 0), zpow_natCast, zpow_natCast]
    rw [hexp]
    conv_rhs => rw [hqeq]
    have hpow_pos : (0 : ℚ) < (2 : ℚ) ^ (natLog2 q.den + 1) := by positivity
    rw [div_le_div_iff₀ hpow_pos hdpos]
    have hnn : (0 : ℚ) ≤ (2 : ℚ) ^ natLog2 q.num.natAbs := by positivity
    nlinarith [haq, hbq, hnn]

/-- Rounding to the nearest integer moves a number by at most 1/2. -/
theorem roundHalfEven_err (x : ℚ) : |(roundHalfEven x : ℚ) - x| ≤ 1 / 2 := by
  have h1 := Int.floor_le x
  have h2 := Int.lt_floor_add_one x
  unfold roundHalfEven
  rw [abs_le]
  split_ifs <;> push_cast <;> constructor <;> linarith

/-- Rounding a number below `2^k` to `p` bits moves it by at most half a unit
in the last place, `2^(k-p)/2`. -/
theorem roundTo_err (p : ℕ) (emin k : ℤ) (q : ℚ) (hq : |q| < (2 : ℚ) ^ k) (he : emin < k) :
    |roundTo p emin q - q| ≤ (2 : ℚ) ^ (k - p) / 2 := by
  unfold roundTo
  split_ifs with h0
  · subst h0; simp; positivity
  · have hpos : 0 < |q| := abs_pos.mpr h0
    have hlog : (2 : ℚ) ^ ilog2 |q| ≤ |q| := ilog2_le |q| hpos
    have hlt : ilog2 |q| < k := by
      have := lt_of_le_of_lt hlog hq
      exact (zpow_lt_zpow_iff_right₀ (by norm_num : (1 : ℚ) < 2)).mp this
    have hmax : max (ilog2 |q|) emin - ((p : ℤ) - 1) ≤ k - p := by
      have : max (ilog2 |q|) emin ≤ k - 1 := by
        apply max_le <;> omega
      omega
    set u : ℚ := (2 : ℚ) ^ (max (ilog2 |q|) emin - ((p : ℤ) - 1)) with hu
    have hupos : 0 < u := by positivity
    have hule : u ≤ (2 : ℚ) ^ (k - p) :=
      zpow_le_zpow_right₀ (by norm_num : (1 : ℚ) ≤ 2) hmax
    have herr := roundHalfEven_err (q / u)
    have hrew : (roundHalfEven (q / u) : ℚ) * u - q = ((roundHalfEven (q / u) : ℚ) - q / u) * u := by
      field_simp
    rw [hrew, abs_mul, abs_of_pos hupos]
    calc |(roundHalfEven (q / u) : ℚ) - q / u| * u ≤ 1 / 2 * u := by
          exact mul_le_mul_of_nonneg_right herr hupos.le
      _ ≤ (2 : ℚ) ^ (k - p) / 2 := by linarith

/-- One `delta_t += .1` on a value in [0, 120] is within `1/250000` of adding
0.1. -/
theorem addTenth32_err (d : ℚ) (h0 : 0 ≤ d) (h : d ≤ 120) :
    |addTenth32 d - (d + 1 / 10)| ≤ 1 / 250000 := by
  unfold addTenth32 fl32 fl64
  have hc : |roundTo 53 (-1022) (1 / 10) - 1 / 10| ≤ (2 : ℚ) ^ ((-3 : ℤ) - (53 : ℕ)) / 2 :=
    roundTo_err 53 (-1022) (-3) (1 / 10) (by rw [abs_of_pos] <;> norm_num) (by norm_num)
  have hcv : (2 : ℚ) ^ ((-3 : ℤ) - (53 : ℕ)) / 2 = 1 / 144115188075855872 := by norm_num
  rw [hcv] at hc
  rw [abs_le] at hc
  set c := roundTo 53 (-1022) (1 / 10) with hcdef
  have hx : |d + c| < (2 : ℚ) ^ (7 : ℤ) := by
    rw [abs_lt]; constructor <;> norm_num <;> linarith [hc.1, hc.2]
  have h64 := roundTo_err 53 (-1022) 7 (d + c) hx (by norm_num)
  have h64v : (2 : ℚ) ^ ((7 : ℤ) - (53 : ℕ)) / 2 = 1 / 140737488355328 := by norm_num
  rw [h64v, abs_le] at h64
  set y := roundTo 53 (-1022) (d + c) with hydef
  have hy : |y| < (2 : ℚ) ^ (7 : ℤ) := by
    rw [abs_lt]; constructor <;> norm_num <;> linarith [hc.1, hc.2, h64.1, h64.2]
  have h32 := roundTo_err 24 (-126) 7 y hy (by norm_num)
  have h32v : (2 : ℚ) ^ ((7 : ℤ) - (24 : ℕ)) / 2 = 1 / 262144 := by norm_num
  rw [h32v, abs_le] at h32
  rw [abs_le]
  constructor <;> linarith [hc.1, hc.2, h64.1, h64.2, h32.1, h32.2]

/-- From 0, `n <= 1000` additions of 0.1 stay within `n/250000` of `0.1*n`. -/
theorem addTenth32_drift (n : ℕ) (hn : n ≤ 1000) :
    |addTenth32^[n] 0 - 1 / 10 * (n : ℚ)| ≤ (n : ℚ) / 250000 := by
  induction n with
  | zero => simp
  | succ n ih =>
    have hprev := ih (Nat.le_of_succ_le hn)
    rw [abs_le] at hprev
    have hnq : (n : ℚ) ≤ 999 := by
      have : n ≤ 999 := by omega
      exact_mod_cast this
    have hn0 : (0 : ℚ) ≤ n := Nat.cast_nonneg n
    have hd0 : 0 ≤ addTenth32^[n] 0 := by linarith [hprev.1]
    have hd1 : addTenth32^[n] 0 ≤ 120 := by linarith [hprev.2]
    have hstep := addTenth32_err (addTenth32^[n] 0) hd0 hd1
    rw [abs_le] at hstep
    rw [Function.iterate_succ_apply', abs_le]
    push_cast
    constructor <;> linarith [hprev.1, hprev.2, hstep.1, hstep.2]

/-- For a speed below 1 in absolute value the `float` value of
`v - v*0.05f` is within `2^-24` of `0.95*v`. -/
theorem damp32_err (v : ℚ) (hv : |v| < 1) :
    |fl32 (v - fl32 (v * fl32 (5 / 100))) - 95 / 100 * v| ≤ 1 / 16777216 := by
  unfold fl32
  have hc : |roundTo 24 (-126) (5 / 100) - 5 / 100| ≤ (2 : ℚ) ^ ((-4 : ℤ) - (24 : ℕ)) / 2 :=
    roundTo_err 24 (-126) (-4) (5 / 100) (by rw [abs_of_pos] <;> norm_num) (by norm_num)
  have hcv : (2 : ℚ) ^ ((-4 : ℤ) - (24 : ℕ)) / 2 = 1 / 536870912 := by norm_num
  rw [hcv] at hc
  set c := roundTo 24 (-126) (5 / 100) with hcdef
  have he1 : |v * c - v * (5 / 100)| ≤ 1 / 536870912 := by
    rw [← mul_sub, abs_mul]
    calc |v| * |c - 5 / 100| ≤ 1 * (1 / 536870912) :=
          mul_le_mul hv.le hc (abs_nonneg _) (by norm_num)
      _ = 1 / 536870912 := by norm_num
  rw [abs_le] at he1
  rw [abs_lt] at hv
  have hvc : |v * c| < (2 : ℚ) ^ (-4 : ℤ) := by
    rw [abs_lt]; constructor <;> norm_num <;> linarith [he1.1, he1.2, hv.1, hv.2]
  have hp := roundTo_err 24 (-126) (-4) (v * c) hvc (by norm_num)
  rw [hcv, abs_le] at hp
  set p := roundTo 24 (-126) (v * c) with hpdef
  have hw : |v - p| < (2 : ℚ) ^ (0 : ℤ) := by
    rw [abs_lt]; constructor <;> norm_num <;>
      linarith [he1.1, he1.2, hv.1, hv.2, hp.1, hp.2]
  have hfw := roundTo_err 24 (-126) 0 (v - p) hw (by norm_num)
  have hfv : (2 : ℚ) ^ ((0 : ℤ) - (24 : ℕ)) / 2 = 1 / 33554432 := by norm_num
  rw [hfv, abs_le] at hfw
  rw [abs_le]
  constructor <;> linarith [he1.1, he1.2, hp.1, hp.2, hfw.1, hfw.2]

/-- The rounded square of the rounding of a number of absolute value below 1 is
within `1/6000000` of the real square. -/
theorem sq32_err (t : ℚ) (h : |t| < 1) :
    |fl32 (fl32 t * fl32 t) - t ^ 2| ≤ 1 / 6000000 ∧ |fl32 (fl32 t * fl32 t)| < 2 := by
  unfold fl32
  have hd := roundTo_err 24 (-126) 0 t (by simpa using h) (by norm_num)
  have hdv : (2 : ℚ) ^ ((0 : ℤ) - (24 : ℕ)) / 2 = 1 / 33554432 := by norm_num
  rw [hdv, abs_le] at hd
  rw [abs_lt] at h
  generalize roundTo 24 (-126) t = d at hd ⊢
  have hprod : |d * d - t ^ 2| ≤ 1 / 33554432 * 3 := by
    rw [show d * d - t ^ 2 = (d - t) * (d + t) by ring, abs_mul]
    exact mul_le_mul (abs_le.mpr hd) (abs_le.mpr ⟨by linarith [hd.1, h.1], by linarith [hd.2, h.2]⟩)
      (abs_nonneg _) (by norm_num)
  rw [abs_le] at hprod
  have ht2 : t ^ 2 < 1 := by nlinarith [h.1, h.2]
  have ht0 : 0 ≤ t ^ 2 := sq_nonneg t
  have hsq : |d * d| < (2 : ℚ) ^ (1 : ℤ) := by
    rw [abs_lt]; constructor <;> norm_num <;> linarith [hprod.1, hprod.2]
  have hs := roundTo_err 24 (-126) 1 (d * d) hsq (by norm_num)
  have hsv : (2 : ℚ) ^ ((1 : ℤ) - (24 : ℕ)) / 2 = 1 / 16777216 := by norm_num
  rw [hsv, abs_le] at hs
  generalize roundTo 24 (-126) (d * d) = q at hs ⊢
  constructor
  · rw [abs_le]
    constructor <;> linarith [hprod.1, hprod.2, hs.1, hs.2]
  · rw [abs_lt]
    constructor <;> linarith [hprod.1, hprod.2, hs.1, hs.2]

/-- Within 1 of the centre in both coordinates the `float` squared distance is
within `1/2000000` of the real one. -/
theorem dist2_32_err (i : Fin 3) (x y : ℚ) (hx : |(a32 i).1 - x| < 1)
    (hy : |(a32 i).2.1 - y| < 1) :
    |dist2_32 i x y - (((a32 i).1 - x) ^ 2 + ((a32 i).2.1 - y) ^ 2)| ≤ 1 / 2000000 := by
  obtain ⟨hx1, hx2⟩ := sq32_err ((a32 i).1 - x) hx
  obtain ⟨hy1, hy2⟩ := sq32_err ((a32 i).2.1 - y) hy
  unfold dist2_32
  generalize fl32 (fl32 ((a32 i).1 - x) * fl32 ((a32 i).1 - x)) = sx at hx1 hx2 ⊢
  generalize fl32 (fl32 ((a32 i).2.1 - y) * fl32 ((a32 i).2.1 - y)) = sy at hy1 hy2 ⊢
  rw [abs_le] at hx1 hy1
  rw [abs_lt] at hx2 hy2
  have hsum : |sx + sy| < (2 : ℚ) ^ (2 : ℤ) := by
    rw [abs_lt]; constructor <;> norm_num <;> linarith [hx2.1, hx2.2, hy2.1, hy2.2]
  have hs := roundTo_err 24 (-126) 2 (sx + sy) hsum (by norm_num)
  have hsv : (2 : ℚ) ^ ((2 : ℤ) - (24 : ℕ)) / 2 = 1 / 8388608 := by norm_num
  rw [hsv, abs_le] at hs
  unfold fl32
  generalize roundTo 24 (-126) (sx + sy) = q at hs ⊢
  rw [abs_le]
  constructor <;> linarith [hx1.1, hx1.2, hy1.1, hy1.2, hs.1, hs.2]

/-- The `float` squared reach of each target is within `1/10000000` of the real
square of `r + radius`. -/
theorem reach2_32_err (i : Fin 3) :
    |reach2_32 i - ((a32 i).2.2 + radius32) ^ 2| ≤ 1 / 10000000 := by
  fin_cases i <;> decide!

/-- Within 1 of the centre in both coordinates the `float` test agrees with the
real one outside a margin of `1/1000000`. -/
theorem inRange32_margin (i : Fin 3) (x y : ℚ) (hx : |(a32 i).1 - x| < 1)
    (hy : |(a32 i).2.1 - y| < 1) :
    ((((a32 i).1 - x) ^ 2 + ((a32 i).2.1 - y) ^ 2) + 1 / 1000000 ≤ ((a32 i).2.2 + radius32) ^ 2
        → inRange32 i x y)
    ∧ (((a32 i).2.2 + radius32) ^ 2 + 1 / 1000000 ≤ ((a32 i).1 - x) ^ 2 + ((a32 i).2.1 - y) ^ 2
        → ¬ inRange32 i x y) := by
  have hd := dist2_32_err i x y hx hy
  have hr := reach2_32_err i
  rw [abs_le] at hd hr
  unfold inRange32
  constructor
  · intro h; linarith [hd.1, hd.2, hr.1, hr.2]
  · intro h hle; linarith [hd.1, hd.2, hr.1, hr.2]

/-! ## Claims -/

/-- C1, evaluated on the code: from the initial state, one frame, `C` pressed and
18 more frames bring the cannon angle to 90; the next frame moves it to 95,
outside [-90, 90], and only the frame after that resets it to -90. -/
theorem C1_rotation_overshoots :
    (run refTrig ([Event.frame, Event.key Key.C Action.PRESS]
        ++ List.replicate 18 Event.frame) init).cannon_rotation = 90
    ∧ (run refTrig ([Event.frame, Event.key Key.C Action.PRESS]
        ++ List.replicate 19 Event.frame) init).cannon_rotation = 95
    ∧ ¬ ((run refTrig ([Event.frame, Event.key Key.C Action.PRESS]
        ++ List.replicate 19 Event.frame) init).cannon_rotation ≤ 90)
    ∧ (run refTrig ([Event.frame, Event.key Key.C Action.PRESS]
        ++ List.replicate 20 Event.frame) init).cannon_rotation = -90 := by
  decide!

/-- C2 as stated fails: two launched ticks after firing straight up from the
initial state trigger no rebound, and the height is 1.00875, not the value
1.0058 of the closed form at T = 0.2. -/
theorem C2_closed_form_fails :
    (run refTrig [Event.frame, Event.key Key.SPACE Action.RELEASE] init).shot = true
    ∧ (run refTrig [Event.frame, Event.key Key.SPACE Action.RELEASE] init).delta_t = 0
    ∧ (run refTrig [Event.frame, Event.key Key.SPACE Action.RELEASE] init).bally_initial = 1
    ∧ (run refTrig [Event.frame, Event.key Key.SPACE Action.RELEASE] init).speedy_initial
        = 3 / 100
    ∧ (run refTrig [Event.frame, Event.key Key.SPACE Action.RELEASE] init).gravity
        = -(1 / 100)
    ∧ (frames refTrig 1
        (run refTrig [Event.frame, Event.key Key.SPACE Action.RELEASE] init)).speedy_initial
        = 3 / 100
    ∧ (frames refTrig 2
        (run refTrig [Event.frame, Event.key Key.SPACE Action.RELEASE] init)).speedy_initial
        = 3 / 100
    ∧ (frames refTrig 2
        (run refTrig [Event.frame, Event.key Key.SPACE Action.RELEASE] init)).bally_initial
        = 1 + 3 / 100 * (3 / 10) + 1 / 2 * (-(1 / 100)) * (5 / 100)
    ∧ (frames refTrig 2
        (run refTrig [Event.frame, Event.key Key.SPACE Action.RELEASE] init)).bally_initial
        ≠ 1 + 3 / 100 * (1 / 10 * 2) + 1 / 2 * (-(1 / 100)) * (1 / 10 * 2) ^ 2 := by
  decide!

/-- C2, amended: from a launched state with `delta_t = 0`, after `t` frames in
which the updated height never leaves [-0.8, 7.2] (no vertical rebound), the
height is `y0 + speedy_initial * S1 + 0.5 * gravity * S2`, where
`S1 = t(t+1)/20` is the sum of the elapsed times `0.1*k` for `k = 1..t` and
`S2 = t(t+1)(2t+1)/600` is the sum of their squares. -/
theorem C2_trajectory_accumulated (T : Trig) (s : State) (t : ℕ)
    (hshot : s.shot = true) (hdt : s.delta_t = 0)
    (hno : ∀ k : ℕ, 1 ≤ k → k ≤ t →
      -(4 / 5) ≤ (frames T k s).bally_initial ∧ (frames T k s).bally_initial ≤ 36 / 5) :
    (frames T t s).bally_initial
      = s.bally_initial + s.speedy_initial * ((t : ℚ) * (t + 1) / 20)
        + 1 / 2 * s.gravity * ((t : ℚ) * (t + 1) * (2 * t + 1) / 600) := by
  have key : ∀ n : ℕ, n ≤ t →
      (frames T n s).shot = true ∧ (frames T n s).delta_t = (n : ℚ) / 10
      ∧ (frames T n s).gravity = s.gravity
      ∧ (frames T n s).speedy_initial = s.speedy_initial
      ∧ (frames T n s).bally_initial
          = s.bally_initial + s.speedy_initial * ((n : ℚ) * (n + 1) / 20)
            + 1 / 2 * s.gravity * ((n : ℚ) * (n + 1) * (2 * n + 1) / 600) := by
    intro n
    induction n with
    | zero => intro _; simp [frames_zero, hshot, hdt]
    | succ n ih =>
      intro hn
      obtain ⟨h1, h2, h3, h4, h5⟩ := ih (Nat.le_of_succ_le hn)
      have hb := hno (n + 1) (Nat.succ_le_succ (Nat.zero_le n)) hn
      rw [frames_succ] at hb ⊢
      have hy := draw_launched_bally_initial T _ h1
      have hv := draw_launched_speedy_initial T _ h1
      rw [launchedTick_speedy_initial] at hv
      have hly : (launchedTick (frames T n s)).bally_initial
          = (draw T (frames T n s)).bally_initial := by
        rw [hy, launchedTick_bally_initial]
      rw [hly] at hv
      have hcond : ¬ ((draw T (frames T n s)).bally_initial < -(8 / 10)
          ∨ (draw T (frames T n s)).bally_initial > 8 - 8 / 10) := by
        intro hc
        rcases hc with hc | hc
        · linarith [hb.1]
        · have : (36 : ℚ) / 5 = 8 - 8 / 10 := by norm_num
          linarith [hb.2]
      rw [if_neg hcond] at hv
      refine ⟨draw_launched_shot T _ h1, ?_, ?_, ?_, ?_⟩
      · rw [draw_launched_delta_t T _ h1, h2]; push_cast; ring
      · rw [draw_launched_gravity T _ h1, h3]
      · rw [hv, h4]
      · rw [hy, h5, h4, h3, h2]; push_cast; ring
  exact (key t le_rfl).2.2.2.2

/-- C2, amended, at a concrete run: three launched ticks after firing straight
up from the initial state. -/
theorem C2_trajectory_accumulated_witness :
    (frames refTrig 3
        (run refTrig [Event.frame, Event.key Key.SPACE Action.RELEASE] init)).bally_initial
      = (run refTrig [Event.frame, Event.key Key.SPACE Action.RELEASE] init).bally_initial
        + (run refTrig [Event.frame, Event.key Key.SPACE Action.RELEASE] init).speedy_initial
            * (((3 : ℕ) : ℚ) * (((3 : ℕ) : ℚ) + 1) / 20)
        + 1 / 2 * (run refTrig [Event.frame, Event.key Key.SPACE Action.RELEASE] init).gravity
            * (((3 : ℕ) : ℚ) * (((3 : ℕ) : ℚ) + 1) * (2 * ((3 : ℕ) : ℚ) + 1) / 600) :=
  C2_trajectory_accumulated refTrig
    (run refTrig [Event.frame, Event.key Key.SPACE Action.RELEASE] init) 3
    (by decide!) (by decide!)
    (by
      intro k h1 h2
      interval_cases k <;> decide!)

/-- C3: once `flg[i]` is set it stays set over every replay of key events and
frames; in every later state the loop iteration of target `i` changes nothing,
wherever the projectile is; the score gained over the replay is exactly the
number of other targets newly hit, so target `i` adds nothing more to it; and
over any replay from any state the score gained is the number of targets newly
hit, each counted once. -/
theorem C3_idempotent_scoring (T : Trig) (s : State) (i : Fin 3) (es : List Event)
    (h : s.flg i = true) :
    (run T es s).flg i = true
    ∧ hitTest i (run T es s) = run T es s
    ∧ (run T es s).score - s.score
        = ((Finset.univ.filter
            (fun j : Fin 3 => j ≠ i ∧ s.flg j = false ∧ (run T es s).flg j = true)).card : ℤ)
    ∧ (run T es s).score - s.score ≤ 2
    ∧ ∀ (s0 : State) (es0 : List Event),
        (run T es0 s0).score - s0.score
          = ((Finset.univ.filter
              (fun j : Fin 3 => s0.flg j = false ∧ (run T es0 s0).flg j = true)).card : ℤ) := by
  have hall : ∀ (s0 : State) (es0 : List Event),
      (run T es0 s0).score - s0.score
        = ((Finset.univ.filter
            (fun j : Fin 3 => s0.flg j = false ∧ (run T es0 s0).flg j = true)).card : ℤ) := by
    intro s0 es0
    have hl := run_ledger T es0 s0
    have hg := hitCount_growth s0 (run T es0 s0) (fun j hj => run_flg_of_set T j es0 s0 hj)
    rw [← hg]
    linarith
  have hi := run_flg_of_set T i es s h
  have hcard : (run T es s).score - s.score
      = ((Finset.univ.filter
          (fun j : Fin 3 => j ≠ i ∧ s.flg j = false ∧ (run T es s).flg j = true)).card : ℤ) := by
    have hl := run_ledger T es s
    have hg := hitCount_growth s (run T es s) (fun j hj => run_flg_of_set T j es s hj)
    have hfilter : Finset.univ.filter
          (fun j : Fin 3 => j ≠ i ∧ s.flg j = false ∧ (run T es s).flg j = true)
        = Finset.univ.filter (fun j : Fin 3 => s.flg j = false ∧ (run T es s).flg j = true) := by
      apply Finset.filter_congr
      intro j _
      constructor
      · exact fun hj => hj.2
      · intro hj
        refine ⟨?_, hj⟩
        intro hji
        rw [hji, h] at hj
        exact Bool.noConfusion hj.1
    rw [hfilter, ← hg]
    linarith
  refine ⟨hi, hitTest_of_set i _ hi, hcard, ?_, hall⟩
  rw [hcard]
  have hsub : Finset.univ.filter
        (fun j : Fin 3 => j ≠ i ∧ s.flg j = false ∧ (run T es s).flg j = true)
      ⊆ Finset.univ.erase i := by
    intro j hj
    simp only [Finset.mem_filter] at hj
    simp [hj.2.1]
  have hle := Finset.card_le_card hsub
  rw [Finset.card_erase_of_mem (Finset.mem_univ i)] at hle
  simp only [Finset.card_univ, Fintype.card_fin] at hle
  exact_mod_cast hle

/-- C3 at a concrete run: after `hitRun` target 1 is hit; one more frame keeps
the projectile inside its hit radius, and the flag stays set with no score
gained. -/
theorem C3_idempotent_scoring_witness :
    (run refTrig hitRun init).flg 1 = true
    ∧ inRange 1 (run refTrig [Event.frame] (run refTrig hitRun init)).ballx_initial
        (run refTrig [Event.frame] (run refTrig hitRun init)).bally_initial
    ∧ ((run refTrig [Event.frame] (run refTrig hitRun init)).flg 1 = true
      ∧ hitTest 1 (run refTrig [Event.frame] (run refTrig hitRun init))
          = run refTrig [Event.frame] (run refTrig hitRun init)
      ∧ (run refTrig [Event.frame] (run refTrig hitRun init)).score
            - (run refTrig hitRun init).score
          = ((Finset.univ.filter
              (fun j : Fin 3 => j ≠ 1 ∧ (run refTrig hitRun init).flg j = false
                ∧ (run refTrig [Event.frame] (run refTrig hitRun init)).flg j = true)).card : ℤ)
      ∧ (run refTrig [Event.frame] (run refTrig hitRun init)).score
            - (run refTrig hitRun init).score ≤ 2) :=
  ⟨by decide!, by decide!,
    (C3_idempotent_scoring refTrig (run refTrig hitRun init) 1 [Event.frame] (by decide!)).1,
    (C3_idempotent_scoring refTrig (run refTrig hitRun init) 1 [Event.frame] (by decide!)).2.1,
    (C3_idempotent_scoring refTrig (run refTrig hitRun init) 1 [Event.frame]
      (by decide!)).2.2.1,
    (C3_idempotent_scoring refTrig (run refTrig hitRun init) 1 [Event.frame]
      (by decide!)).2.2.2.1⟩

/-- C5: with the three fixed targets, from the initial state with any speed
setting, one unlaunched frame, a fire event and then any number `n` of frames
leave every hit flag clear and the score at 0 (the library sine is 0 at 0). -/
theorem C5_straight_up_never_hits (T : Trig) (v : ℚ) (n : ℕ) (hsin : T.sin 0 = 0) :
    (run T ([Event.frame, Event.key Key.SPACE Action.RELEASE] ++ List.replicate n Event.frame)
        { init with speed := v }).score = 0
    ∧ ∀ i : Fin 3,
      (run T ([Event.frame, Event.key Key.SPACE Action.RELEASE] ++ List.replicate n Event.frame)
        { init with speed := v }).flg i = false := by
  have hrun : run T ([Event.frame, Event.key Key.SPACE Action.RELEASE]
        ++ List.replicate n Event.frame) { init with speed := v }
      = frames T n (keyboard Key.SPACE Action.RELEASE (draw T { init with speed := v })) := by
    show run T (List.replicate n Event.frame) _ = _
    exact run_replicate_frame T n _
  rw [hrun]
  have key : ∀ m : ℕ,
      (frames T m (keyboard Key.SPACE Action.RELEASE (draw T { init with speed := v }))).shot
          = true
      ∧ (frames T m (keyboard Key.SPACE Action.RELEASE
            (draw T { init with speed := v }))).ballx_initial = 0
      ∧ (frames T m (keyboard Key.SPACE Action.RELEASE
            (draw T { init with speed := v }))).speedx_initial = 0
      ∧ (frames T m (keyboard Key.SPACE Action.RELEASE
            (draw T { init with speed := v }))).score = 0
      ∧ ∀ i : Fin 3, (frames T m (keyboard Key.SPACE Action.RELEASE
            (draw T { init with speed := v }))).flg i = false := by
    intro m
    induction m with
    | zero =>
      rw [frames_zero, draw_unlaunched T _ rfl]
      simp [keyboard, trackMuzzle, init, hsin]
    | succ m ih =>
      obtain ⟨h1, h2, h3, h4, h5⟩ := ih
      rw [frames_succ]
      have hx := draw_launched_ballx_initial T _ h1
      rw [h2, h3] at hx
      have hflg : ∀ i : Fin 3, (draw T (frames T m (keyboard Key.SPACE Action.RELEASE
          (draw T { init with speed := v })))).flg i = false := by
        intro i
        rw [draw_launched_flg T _ h1]
        have hn : ¬ ((collide (integrate (frames T m (keyboard Key.SPACE Action.RELEASE
            (draw T { init with speed := v }))))).flg i = true) := by
          rw [collide_flg_iff]
          have hxi : (integrate (frames T m (keyboard Key.SPACE Action.RELEASE
              (draw T { init with speed := v })))).ballx_initial = 0 := by
            simp [integrate, h2, h3]
          have hfi : (integrate (frames T m (keyboard Key.SPACE Action.RELEASE
              (draw T { init with speed := v })))).flg i = false := h5 i
          rw [hxi, hfi]
          simpa using not_inRange_zero i _
        simpa using hn
      refine ⟨draw_launched_shot T _ h1, by simpa using hx, ?_, ?_, hflg⟩
      · rw [draw_launched_speedx_initial T _ h1, launchedTick_speedx_initial, h2, h3]
        simp [xoffset]
      · have hl := draw_ledger T (frames T m (keyboard Key.SPACE Action.RELEASE
          (draw T { init with speed := v })))
        rw [hitCount_of_none _ hflg, hitCount_of_none _ h5, h4] at hl
        linarith
  exact ⟨(key n).2.2.2.1, (key n).2.2.2.2⟩

/-- C5 at a concrete run: default speed and forty frames after the fire event. -/
theorem C5_straight_up_never_hits_witness :
    refTrig.sin 0 = 0
    ∧ ((run refTrig ([Event.frame, Event.key Key.SPACE Action.RELEASE]
          ++ List.replicate 40 Event.frame) { init with speed := 3 / 100 }).score = 0
      ∧ ∀ i : Fin 3,
        (run refTrig ([Event.frame, Event.key Key.SPACE Action.RELEASE]
          ++ List.replicate 40 Event.frame) { init with speed := 3 / 100 }).flg i = false) :=
  ⟨by decide!, C5_straight_up_never_hits refTrig (3 / 100) 40 (by decide!)⟩

/-- C6 as stated fails.  First run: after one frame the speed setting is raised
to 0.04 and the fire event follows; at the fire event the speed is 0.04 and the
angle 0, yet the launch velocity is the 0.03 computed by the frame, and the
first launched tick moves with it.  Second run: with `C` held, the frame before
the fire event computes the velocity for angle 0 and then turns the cannon to 5;
the launch velocity stays the one of angle 0. -/
theorem C6_fire_instant_fails :
    (run refTrig [Event.frame, Event.key Key.F Action.RELEASE] init).shot = false
    ∧ (run refTrig [Event.frame, Event.key Key.F Action.RELEASE] init).speed = 4 / 100
    ∧ (run refTrig [Event.frame, Event.key Key.F Action.RELEASE] init).cannon_rotation = 0
    ∧ (run refTrig [Event.frame, Event.key Key.F Action.RELEASE,
          Event.key Key.SPACE Action.RELEASE] init).speedy_initial = 3 / 100
    ∧ (run refTrig [Event.frame, Event.key Key.F Action.RELEASE,
          Event.key Key.SPACE Action.RELEASE] init).speedy_initial
        ≠ (run refTrig [Event.frame, Event.key Key.F Action.RELEASE] init).speed
          * refTrig.cos (run refTrig [Event.frame, Event.key Key.F Action.RELEASE]
              init).cannon_rotation
    ∧ (run refTrig [Event.frame, Event.key Key.F Action.RELEASE,
          Event.key Key.SPACE Action.RELEASE, Event.frame] init).bally_initial
        = 1 + 3 / 100 * (1 / 10) + 1 / 2 * (-(1 / 100)) * (1 / 10) * (1 / 10)
    ∧ (run refTrig [Event.frame, Event.key Key.C Action.PRESS, Event.frame] init).shot = false
    ∧ (run refTrig [Event.frame, Event.key Key.C Action.PRESS, Event.frame]
          init).cannon_rotation = 5
    ∧ (run refTrig [Event.frame, Event.key Key.C Action.PRESS, Event.frame,
          Event.key Key.SPACE Action.RELEASE] init).speedx_initial = 0
    ∧ (run refTrig [Event.frame, Event.key Key.C Action.PRESS, Event.frame,
          Event.key Key.SPACE Action.RELEASE] init).speedx_initial
        ≠ -(run refTrig [Event.frame, Event.key Key.C Action.PRESS, Event.frame] init).speed
          * refTrig.sin (run refTrig [Event.frame, Event.key Key.C Action.PRESS, Event.frame]
              init).cannon_rotation := by
  decide!

/-- C6, amended: the launch velocity is the one computed by the last frame
before the fire event.  From an unlaunched state `s`, a frame followed by key
events only (the fire event among them or not) leaves
`speedx_initial = -speed*sin(angle)` and `speedy_initial = speed*cos(angle)`
with the speed and angle `s` had when that frame began; if the projectile is
then launched, the next frame moves it with exactly that velocity; and when the
frame began at angle 0 (sine 0, cosine 1) the velocity is `(0, speed)`. -/
theorem C6_launch_vector_of_last_frame (T : Trig) (s : State) (ks : List Event)
    (hshot : s.shot = false) (hks : Event.frame ∉ ks) :
    (run T (Event.frame :: ks) s).speedx_initial = -s.speed * T.sin s.cannon_rotation
    ∧ (run T (Event.frame :: ks) s).speedy_initial = s.speed * T.cos s.cannon_rotation
    ∧ ((run T (Event.frame :: ks) s).shot = true →
        (draw T (run T (Event.frame :: ks) s)).ballx_initial
          = (run T (Event.frame :: ks) s).ballx_initial
            + -s.speed * T.sin s.cannon_rotation
              * ((run T (Event.frame :: ks) s).delta_t + 1 / 10)
        ∧ (draw T (run T (Event.frame :: ks) s)).bally_initial
          = (run T (Event.frame :: ks) s).bally_initial
            + (s.speed * T.cos s.cannon_rotation
                * ((run T (Event.frame :: ks) s).delta_t + 1 / 10)
              + 1 / 2 * (run T (Event.frame :: ks) s).gravity
                * ((run T (Event.frame :: ks) s).delta_t + 1 / 10)
                * ((run T (Event.frame :: ks) s).delta_t + 1 / 10)))
    ∧ (s.cannon_rotation = 0 → T.sin 0 = 0 → T.cos 0 = 1 →
        (run T (Event.frame :: ks) s).speedx_initial = 0
        ∧ (run T (Event.frame :: ks) s).speedy_initial = s.speed) := by
  have hx : (run T (Event.frame :: ks) s).speedx_initial
      = -s.speed * T.sin s.cannon_rotation := by
    simp only [run]
    rw [(run_keys_velocity T ks _ hks).1, draw_unlaunched T s hshot]
    simp [trackMuzzle]
  have hy : (run T (Event.frame :: ks) s).speedy_initial
      = s.speed * T.cos s.cannon_rotation := by
    simp only [run]
    rw [(run_keys_velocity T ks _ hks).2, draw_unlaunched T s hshot]
    simp [trackMuzzle]
  refine ⟨hx, hy, ?_, ?_⟩
  · intro hl
    rw [draw_launched_ballx_initial T _ hl, draw_launched_bally_initial T _ hl, hx, hy]
    exact ⟨rfl, rfl⟩
  · intro h0 hs hc
    rw [hx, hy, h0, hs, hc]
    simp

/-- C6, amended, at a concrete run: `C` is held, so the frame before the fire
event turns the cannon from 0 to 5, and the speed setting is raised after that
frame; the launch velocity is still the one of angle 0 and speed 0.03. -/
theorem C6_launch_vector_of_last_frame_witness :
    (run refTrig [Event.frame, Event.key Key.C Action.PRESS] init).shot = false
    ∧ Event.frame ∉ [Event.key Key.F Action.RELEASE, Event.key Key.SPACE Action.RELEASE]
    ∧ (run refTrig [Event.frame, Event.key Key.C Action.PRESS] init).speed = 3 / 100
    ∧ (run refTrig [Event.frame, Event.key Key.C Action.PRESS] init).cannon_rotation = 0
    ∧ (run refTrig
          (Event.frame :: [Event.key Key.F Action.RELEASE, Event.key Key.SPACE Action.RELEASE])
          (run refTrig [Event.frame, Event.key Key.C Action.PRESS] init)).speedx_initial
        = -(run refTrig [Event.frame, Event.key Key.C Action.PRESS] init).speed
          * refTrig.sin (run refTrig [Event.frame, Event.key Key.C Action.PRESS]
              init).cannon_rotation
    ∧ (run refTrig
          (Event.frame :: [Event.key Key.F Action.RELEASE, Event.key Key.SPACE Action.RELEASE])
          (run refTrig [Event.frame, Event.key Key.C Action.PRESS] init)).speedy_initial
        = (run refTrig [Event.frame, Event.key Key.C Action.PRESS] init).speed
          * refTrig.cos (run refTrig [Event.frame, Event.key Key.C Action.PRESS]
              init).cannon_rotation :=
  ⟨by decide!, by decide, by decide!, by decide!,
    (C6_launch_vector_of_last_frame refTrig
      (run refTrig [Event.frame, Event.key Key.C Action.PRESS] init)
      [Event.key Key.F Action.RELEASE, Event.key Key.SPACE Action.RELEASE]
      (by decide!) (by decide)).1,
    (C6_launch_vector_of_last_frame refTrig
      (run refTrig [Event.frame, Event.key Key.C Action.PRESS] init)
      [Event.key Key.F Action.RELEASE, Event.key Key.SPACE Action.RELEASE]
      (by decide!) (by decide)).2.1⟩

/-- C7 as stated fails on the `float` program: after one launched tick
`delta_t` is the `float` 0.100000001, not 0.1, and after seven launched ticks of
a shot straight up it is 0.70000005, which is neither 0.7 nor the `float` nearest
to 0.7. -/
theorem C7_elapsed_time_drifts :
    launchedTicks32 refTrig (straightUp 1) init32 = 1
    ∧ (run32 refTrig (straightUp 1) init32).delta_t = 13421773 / 134217728
    ∧ (run32 refTrig (straightUp 1) init32).delta_t ≠ 1 / 10 * 1
    ∧ launchedTicks32 refTrig (straightUp 7) init32 = 7
    ∧ (run32 refTrig (straightUp 7) init32).delta_t = 2936013 / 4194304
    ∧ (run32 refTrig (straightUp 7) init32).delta_t ≠ 1 / 10 * 7
    ∧ (run32 refTrig (straightUp 7) init32).delta_t ≠ fl32 (7 / 10) := by
  simp only [run32_delta_t, launchedTicks32_straightUp]
  decide!

/-- C7, amended to `float` arithmetic: a launched frame sets
`delta_t' = fl32(delta_t + 0.1)` (the sum is formed in `double` with the `double`
literal) and then, with the new `delta_t'` and the speeds held when the frame
began, `x' = fl32(x + fl32(speedx_initial*delta_t'))`,
`y' = fl32(y + (fl32(speedy_initial*delta_t') + 0.5*gravity*delta_t'*delta_t'))`
with the inner products and sums rounded to `double`, and
`speedy_final' = fl32(speedy_initial + fl32(gravity*delta_t'))`; an unlaunched
frame leaves `delta_t` unchanged; so over any replay `delta_t` is the result of
adding 0.1 in this way once per launched tick, and from the initial state it is
within `n/250000` of `0.1*n` after `n <= 1000` launched ticks; at 2097152 the
addition no longer changes it. -/
theorem C7_integration_rule32 (T : Trig) (s : State) (es : List Event) :
    (draw32 T s).delta_t = (if s.shot = true then addTenth32 s.delta_t else s.delta_t)
    ∧ addTenth32 s.delta_t = fl32 (fl64 (s.delta_t + fl64 (1 / 10)))
    ∧ (draw32 T { s with shot := true }).ballx_initial
        = fl32 (s.ballx_initial
            + fl32 (s.speedx_initial * (draw32 T { s with shot := true }).delta_t))
    ∧ (draw32 T { s with shot := true }).bally_initial
        = fl32 (fl64 (s.bally_initial
            + fl64 (fl32 (s.speedy_initial * (draw32 T { s with shot := true }).delta_t)
                + fl64 (fl64 (fl64 (fl64 (1 / 2) * s.gravity)
                      * (draw32 T { s with shot := true }).delta_t)
                    * (draw32 T { s with shot := true }).delta_t))))
    ∧ (draw32 T { s with shot := true }).speedy_final
        = fl32 (s.speedy_initial
            + fl32 (s.gravity * (draw32 T { s with shot := true }).delta_t))
    ∧ (run32 T es s).delta_t = addTenth32^[launchedTicks32 T es s] s.delta_t
    ∧ (run32 T es init32).delta_t = addTenth32^[launchedTicks32 T es init32] 0
    ∧ (launchedTicks32 T es init32 ≤ 1000 →
        |(run32 T es init32).delta_t - 1 / 10 * (launchedTicks32 T es init32 : ℚ)|
          ≤ (launchedTicks32 T es init32 : ℚ) / 250000)
    ∧ addTenth32 2097152 = 2097152 := by
  have hs : ({ s with shot := true } : State).shot = true := rfl
  obtain ⟨-, hd, hx, hy, -, -, hf, -, -⟩ := draw32_launched_fields T { s with shot := true } hs
  have hrun := run32_delta_t T es init32
  refine ⟨draw32_delta_t T s, rfl, ?_, ?_, ?_, run32_delta_t T es s, hrun, ?_, by decide!⟩
  · rw [hx, hd, launchedTick32_ballx_initial, launchedTick32_delta_t]
  · rw [hy, hd, launchedTick32_bally_initial, launchedTick32_delta_t]
  · rw [hf, hd, launchedTick32_speedy_final, launchedTick32_delta_t]
  · intro hn
    rw [hrun]
    exact addTenth32_drift _ hn

/-- C7, amended, at a concrete replay: a shot straight up with 7 launched ticks;
`delta_t` is within `7/250000` of 0.7. -/
theorem C7_integration_rule32_witness :
    launchedTicks32 refTrig (straightUp 7) init32 ≤ 1000
    ∧ |(run32 refTrig (straightUp 7) init32).delta_t
        - 1 / 10 * (launchedTicks32 refTrig (straightUp 7) init32 : ℚ)|
      ≤ (launchedTicks32 refTrig (straightUp 7) init32 : ℚ) / 250000 :=
  ⟨by rw [launchedTicks32_straightUp]; norm_num,
    (C7_integration_rule32 refTrig init32 (straightUp 7)).2.2.2.2.2.2.2.1
      (by rw [launchedTicks32_straightUp]; norm_num)⟩

/-- C9, evaluated on the code: with `C` held the cannon reaches 90; on the next
frame `90 + 5` would exceed 90, and the angle after that frame is 95, not -90.
With `P` held it reaches -90 and the next frame ends at -95, not 90. -/
theorem C9_wrap_comes_a_frame_late :
    (run refTrig ([Event.frame, Event.key Key.C Action.PRESS]
        ++ List.replicate 18 Event.frame) init).cannon_rotation = 90
    ∧ (run refTrig ([Event.frame, Event.key Key.C Action.PRESS]
        ++ List.replicate 18 Event.frame) init).cannon_rot_status = true
    ∧ (run refTrig ([Event.frame, Event.key Key.C Action.PRESS]
        ++ List.replicate 18 Event.frame) init).cannon_rot_dir = 1
    ∧ (draw refTrig (run refTrig ([Event.frame, Event.key Key.C Action.PRESS]
        ++ List.replicate 18 Event.frame) init)).cannon_rotation = 95
    ∧ (draw refTrig (run refTrig ([Event.frame, Event.key Key.C Action.PRESS]
        ++ List.replicate 18 Event.frame) init)).cannon_rotation ≠ -90
    ∧ (run refTrig ([Event.frame, Event.key Key.P Action.PRESS]
        ++ List.replicate 18 Event.frame) init).cannon_rotation = -90
    ∧ (run refTrig ([Event.frame, Event.key Key.P Action.PRESS]
        ++ List.replicate 18 Event.frame) init).cannon_rot_status = true
    ∧ (run refTrig ([Event.frame, Event.key Key.P Action.PRESS]
        ++ List.replicate 18 Event.frame) init).cannon_rot_dir = -1
    ∧ (draw refTrig (run refTrig ([Event.frame, Event.key Key.P Action.PRESS]
        ++ List.replicate 18 Event.frame) init)).cannon_rotation = -95
    ∧ (draw refTrig (run refTrig ([Event.frame, Event.key Key.P Action.PRESS]
        ++ List.replicate 18 Event.frame) init)).cannon_rotation ≠ 90 := by
  decide!

/-- C10, evaluated on the code: fire straight up from the initial state and let
149 frames pass; the projectile is then below -2.  With `C` now pressed
(rotation active, direction +1, angle 0) the next frame returns before the angle
update: the angle stays 0 instead of becoming 5. -/
theorem C10_rotation_skipped_below_floor :
    (run refTrig ([Event.frame, Event.key Key.SPACE Action.RELEASE]
        ++ List.replicate 149 Event.frame ++ [Event.key Key.C Action.PRESS]) init).shot = true
    ∧ (run refTrig ([Event.frame, Event.key Key.SPACE Action.RELEASE]
        ++ List.replicate 149 Event.frame
        ++ [Event.key Key.C Action.PRESS]) init).cannon_rot_status = true
    ∧ (run refTrig ([Event.frame, Event.key Key.SPACE Action.RELEASE]
        ++ List.replicate 149 Event.frame
        ++ [Event.key Key.C Action.PRESS]) init).cannon_rot_dir = 1
    ∧ (run refTrig ([Event.frame, Event.key Key.SPACE Action.RELEASE]
        ++ List.replicate 149 Event.frame
        ++ [Event.key Key.C Action.PRESS]) init).cannon_rotation = 0
    ∧ (run refTrig ([Event.frame, Event.key Key.SPACE Action.RELEASE]
        ++ List.replicate 149 Event.frame
        ++ [Event.key Key.C Action.PRESS]) init).bally_initial < -2
    ∧ (draw refTrig (run refTrig ([Event.frame, Event.key Key.SPACE Action.RELEASE]
        ++ List.replicate 149 Event.frame
        ++ [Event.key Key.C Action.PRESS]) init)).bally_initial < -2
    ∧ (draw refTrig (run refTrig ([Event.frame, Event.key Key.SPACE Action.RELEASE]
        ++ List.replicate 149 Event.frame
        ++ [Event.key Key.C Action.PRESS]) init)).cannon_rotation = 0
    ∧ (draw refTrig (run refTrig ([Event.frame, Event.key Key.SPACE Action.RELEASE]
        ++ List.replicate 149 Event.frame
        ++ [Event.key Key.C Action.PRESS]) init)).cannon_rotation ≠ 0 + 5 * 1 := by
  decide!

/-- C11: in every state reached from the initial state by key events and frames
the score is the number of targets whose hit flag is set, so it lies between 0
and 3; the score never decreases when the replay goes on; and when exactly one
flag is set (one target hit, the other two missed) the score is 1. -/
theorem C11_score_accounting (T : Trig) (es es2 : List Event) :
    (run T es init).score
        = ((Finset.univ.filter (fun j : Fin 3 => (run T es init).flg j = true)).card : ℤ)
    ∧ 0 ≤ (run T es init).score
    ∧ (run T es init).score ≤ 3
    ∧ (run T es init).score ≤ (run T es2 (run T es init)).score
    ∧ ∀ i : Fin 3,
        ((run T es init).flg i = true ∧ ∀ j : Fin 3, j ≠ i → (run T es init).flg j = false) →
          (run T es init).score = 1
          ∧ (Finset.univ.filter (fun j : Fin 3 => (run T es init).flg j = true)).card = 1 := by
  have hl := run_ledger T es init
  have h0 : hitCount init = 0 := hitCount_of_none init (fun _ => rfl)
  have hs0 : init.score = 0 := rfl
  have hscore : (run T es init).score = hitCount (run T es init) := by
    rw [h0, hs0] at hl
    linarith
  have hcard := hitCount_eq_card (run T es init)
  have h3 := card_flags_le_three (run T es init)
  have hmono : (run T es init).score ≤ (run T es2 (run T es init)).score := by
    have hl2 := run_ledger T es2 (run T es init)
    have hg := hitCount_growth (run T es init) (run T es2 (run T es init))
      (fun j hj => run_flg_of_set T j es2 _ hj)
    have hnn : (0 : ℤ) ≤ ((Finset.univ.filter (fun j : Fin 3 =>
        (run T es init).flg j = false
          ∧ (run T es2 (run T es init)).flg j = true)).card : ℤ) := Int.natCast_nonneg _
    linarith
  refine ⟨by rw [hscore, hcard], ?_, ?_, hmono, ?_⟩
  · rw [hscore, hcard]; exact Int.natCast_nonneg _
  · rw [hscore, hcard]; exact_mod_cast h3
  · rintro i ⟨hi, hothers⟩
    have hone : (Finset.univ.filter (fun j : Fin 3 => (run T es init).flg j = true)).card
        = 1 := by
      have hset : Finset.univ.filter (fun j : Fin 3 => (run T es init).flg j = true)
          = {i} := by
        ext j
        simp only [Finset.mem_filter, Finset.mem_univ, true_and, Finset.mem_singleton]
        constructor
        · intro hj
          by_contra hne
          rw [hothers j hne] at hj
          exact Bool.noConfusion hj
        · intro hj
          rw [hj]; exact hi
      rw [hset, Finset.card_singleton]
    refine ⟨?_, hone⟩
    rw [hscore, hcard, hone]
    rfl

/-- C11 at a concrete run: after `hitRun` target 1 is hit and targets 0 and 2
are not; the score is 1 and exactly one flag is set. -/
theorem C11_score_accounting_witness :
    ((run refTrig hitRun init).flg 1 = true
      ∧ ∀ j : Fin 3, j ≠ 1 → (run refTrig hitRun init).flg j = false)
    ∧ (run refTrig hitRun init).score = 1
    ∧ (Finset.univ.filter (fun j : Fin 3 => (run refTrig hitRun init).flg j = true)).card
        = 1 :=
  ⟨by decide!,
    (C11_score_accounting refTrig hitRun []).2.2.2.2 1 (by decide!)⟩

/-- C14: the three hit discs (centre `a[i]`, radius `r_i + 0.1`, that is 0.6, 0.8
and 0.3) have no point in common two by two; hence, for every state, one frame
sets the flag of at most one target not yet hit and raises the score by 0 or
by 1. -/
theorem C14_at_most_one_hit_per_frame (T : Trig) (s : State) :
    ((a 0).2.2 + radius = 6 / 10 ∧ (a 1).2.2 + radius = 8 / 10 ∧ (a 2).2.2 + radius = 3 / 10)
    ∧ (∀ (i j : Fin 3) (x y : ℚ), i ≠ j →
        ¬ (((a i).1 - x) ^ 2 + ((a i).2.1 - y) ^ 2 ≤ ((a i).2.2 + radius) ^ 2
          ∧ ((a j).1 - x) ^ 2 + ((a j).2.1 - y) ^ 2 ≤ ((a j).2.2 + radius) ^ 2))
    ∧ (Finset.univ.filter
        (fun j : Fin 3 => s.flg j = false ∧ (draw T s).flg j = true)).card ≤ 1
    ∧ 0 ≤ (draw T s).score - s.score
    ∧ (draw T s).score - s.score ≤ 1 := by
  have hcard : (Finset.univ.filter
      (fun j : Fin 3 => s.flg j = false ∧ (draw T s).flg j = true)).card ≤ 1 := by
    rw [Finset.card_le_one]
    intro i hi j hj
    simp only [Finset.mem_filter, Finset.mem_univ, true_and] at hi hj
    by_contra hij
    exact inRange_disjoint i j _ _ hij
      ⟨(draw_new_flag T s i hi.1 hi.2).2, (draw_new_flag T s j hj.1 hj.2).2⟩
  have hgain : (draw T s).score - s.score
      = ((Finset.univ.filter
          (fun j : Fin 3 => s.flg j = false ∧ (draw T s).flg j = true)).card : ℤ) := by
    have hl := draw_ledger T s
    have hg := hitCount_growth s (draw T s) (fun j hj => draw_flg_of_set T j s hj)
    rw [← hg]
    linarith
  refine ⟨⟨by norm_num [a, radius], by norm_num [a, radius], by norm_num [a, radius]⟩,
    ?_, hcard, ?_, ?_⟩
  · intro i j x y hij h
    apply inRange_disjoint i j x y hij
    simpa only [inRange, pow_two] using h
  · rw [hgain]; exact Int.natCast_nonneg _
  · rw [hgain]; exact_mod_cast hcard

/-- C12: while the projectile is not launched it is drawn with
`VP * translateAxes` followed by the cannon's own pivot translation (1, 0.3) and
rotation by the cannon angle and then the local offset (0, 0.86), where the
cannon has the local offset (0, 0.5).  So, with `VP * translateAxes` factored
out, its centre is `(1 - 0.86 sin, 0.3 + 0.86 cos)`: the point (0, 0.86) of the
cannon's rotated frame, on the segment from the pivot (1, 0.3) to the drawn
barrel tip `(1 - sin, 0.3 + cos)`, the image of the middle of the top edge of the
cannon mesh. -/
theorem C12_muzzle_tracking (T : Trig) (VP : Mat4) (s : State) (h : s.shot = false) :
    mvpBall T VP s
        = some (VP * translateAxes
            * (translate 1 (3 / 10) 0 * rotate T s.cannon_rotation * translate 0 (86 / 100) 0))
    ∧ mvpCannon T VP s
        = VP * translateAxes
            * (translate 1 (3 / 10) 0 * rotate T s.cannon_rotation * translate 0 (1 / 2) 0)
    ∧ (Mesh.ball, VP * translateAxes
          * (translate 1 (3 / 10) 0 * rotate T s.cannon_rotation * translate 0 (86 / 100) 0))
        ∈ drawCalls T VP s
    ∧ (Mesh.cannon, mvpCannon T VP s) ∈ drawCalls T VP s
    ∧ (translate 1 (3 / 10) 0 * rotate T s.cannon_rotation
          * translate 0 (86 / 100) 0).mulVec ![0, 0, 0, 1]
        = ![1 - 86 / 100 * T.sin s.cannon_rotation, 3 / 10 + 86 / 100 * T.cos s.cannon_rotation,
            0, 1]
    ∧ (translate 1 (3 / 10) 0 * rotate T s.cannon_rotation).mulVec ![0, 86 / 100, 0, 1]
        = ![1 - 86 / 100 * T.sin s.cannon_rotation, 3 / 10 + 86 / 100 * T.cos s.cannon_rotation,
            0, 1]
    ∧ (translate 1 (3 / 10) 0 * rotate T s.cannon_rotation).mulVec ![0, 0, 0, 1]
        = ![1, 3 / 10, 0, 1]
    ∧ ((1 / 10, 1 / 2, 0) ∈ cannon_vertex_buffer_data
        ∧ (-(1 / 10), 1 / 2, 0) ∈ cannon_vertex_buffer_data)
    ∧ (translate 1 (3 / 10) 0 * rotate T s.cannon_rotation
          * translate 0 (1 / 2) 0).mulVec ![0, 1 / 2, 0, 1]
        = ![1 - T.sin s.cannon_rotation, 3 / 10 + T.cos s.cannon_rotation, 0, 1]
    ∧ (1 - 86 / 100 * T.sin s.cannon_rotation
          = 1 + 86 / 100 * ((1 - T.sin s.cannon_rotation) - 1)
        ∧ 3 / 10 + 86 / 100 * T.cos s.cannon_rotation
          = 3 / 10 + 86 / 100 * ((3 / 10 + T.cos s.cannon_rotation) - 3 / 10)
        ∧ (0 : ℚ) ≤ 86 / 100 ∧ (86 : ℚ) / 100 ≤ 1) := by
  have hball : mvpBall T VP s
      = some (VP * translateAxes
          * (translate 1 (3 / 10) 0 * rotate T s.cannon_rotation * translate 0 (86 / 100) 0)) := by
    simp only [mvpBall, h, Bool.not_false, if_true, Matrix.mul_one, Matrix.one_mul,
      Matrix.mul_assoc]
  have hcannon : mvpCannon T VP s
      = VP * translateAxes
          * (translate 1 (3 / 10) 0 * rotate T s.cannon_rotation * translate 0 (1 / 2) 0) := by
    simp only [mvpCannon, Matrix.one_mul, Matrix.mul_assoc]
  refine ⟨hball, hcannon, mem_drawCalls_ball T VP s _ hball, mem_drawCalls_cannon T VP s,
    ?_, ?_, ?_, ⟨by simp [cannon_vertex_buffer_data], by simp [cannon_vertex_buffer_data]⟩,
    ?_, ⟨by ring, by ring, by norm_num, by norm_num⟩⟩
  · rw [← Matrix.mulVec_mulVec, ← Matrix.mulVec_mulVec, translate_mulVec, rotate_mulVec,
      translate_mulVec]
    ext i
    fin_cases i <;> simp <;> ring
  · rw [cannonFrame_mulVec]
    ext i
    fin_cases i <;> simp <;> ring
  · rw [cannonFrame_mulVec]
    ext i
    fin_cases i <;> simp
  · rw [← Matrix.mulVec_mulVec, ← Matrix.mulVec_mulVec, translate_mulVec, rotate_mulVec,
      translate_mulVec]
    ext i
    fin_cases i <;> simp <;> ring

/-- C12 at a concrete state: `C` held for six frames (cannon angle 30), the
projectile not launched. -/
theorem C12_muzzle_tracking_witness :
    (run refTrig ([Event.frame, Event.key Key.C Action.PRESS] ++ List.replicate 6 Event.frame)
        init).shot = false
    ∧ (run refTrig ([Event.frame, Event.key Key.C Action.PRESS] ++ List.replicate 6 Event.frame)
        init).cannon_rotation = 30
    ∧ (translate 1 (3 / 10) 0
          * rotate refTrig (run refTrig ([Event.frame, Event.key Key.C Action.PRESS]
              ++ List.replicate 6 Event.frame) init).cannon_rotation
          * translate 0 (86 / 100) 0).mulVec ![0, 0, 0, 1]
        = ![1 - 86 / 100 * refTrig.sin (run refTrig ([Event.frame, Event.key Key.C Action.PRESS]
              ++ List.replicate 6 Event.frame) init).cannon_rotation,
            3 / 10 + 86 / 100 * refTrig.cos (run refTrig
              ([Event.frame, Event.key Key.C Action.PRESS]
                ++ List.replicate 6 Event.frame) init).cannon_rotation,
            0, 1] :=
  ⟨by decide!, by decide!,
    (C12_muzzle_tracking refTrig 1
      (run refTrig ([Event.frame, Event.key Key.C Action.PRESS] ++ List.replicate 6 Event.frame)
        init) (by decide!)).2.2.2.2.1⟩

end Cannon
